import Mathlib

set_option maxHeartbeats 1000000
set_option maxRecDepth 4000

/-!
Verification of the custom streaming-dataset subsystem
(module-3/streaming_dataset/custom_streaming.py): shard conversion,
manifest loading, chunk loading, batch iteration and random access,
shallowly embedded as executable Lean definitions.
-/

namespace StreamingDataset

/-- Scalar cell values of a tabular dataset.  Floats are modelled as
rationals: the float32 rounding of large magnitudes is not modelled, and
the concrete tables used below only carry exactly representable values. -/
inductive Value where
  | vInt (n : Int)
  | vFloat (q : Rat)
  | vBool (b : Bool)
  | vStr (s : String)
  | vDatetime (ts : String)
deriving DecidableEq, Repr

/-- Pandas column dtypes, at the granularity distinguished by the
pd.api.types tests used in the source. -/
inductive Dtype where
  | dInt
  | dFloat
  | dBool
  | dDatetime
  | dObj
deriving DecidableEq, Repr

/-- Embedding of pd.api.types.is_numeric_dtype: integer, float and boolean
dtypes are numeric; datetime64 and object dtypes are not. -/
def isNumericDtype : Dtype → Bool
  | .dInt => true
  | .dFloat => true
  | .dBool => true
  | .dDatetime => false
  | .dObj => false

/-- Column-oriented table (pandas DataFrame): a stored row count plus one
(name, dtype, values) triple per column. -/
structure Frame where
  nrows : Nat
  cols : List (String × Dtype × List Value)
deriving DecidableEq, Repr

/-- Well-formedness: every column holds exactly nrows values. -/
def Frame.wf (f : Frame) : Prop := ∀ c ∈ f.cols, (c.2.2).length = f.nrows

/-- Model of python range(start, stop, step) for a positive step. -/
def pyRange3 (start stop step : Nat) : List Nat :=
  (List.range ((stop - start + step - 1) / step)).map (fun k => start + step * k)

/-- Model of the python slice l[i:j] for nonnegative bounds. -/
def pySlice (l : List α) (i j : Nat) : List α := (l.drop i).take (j - i)

/-- Contiguous windows of length c over l (last window may be shorter),
exactly as produced by iterating i over range(0, len(l), c) and slicing
l[i:min(i+c, len(l))]. -/
def chunksOf (c : Nat) (l : List α) : List (List α) :=
  (pyRange3 0 l.length c).map (fun i => pySlice l i (min (i + c) l.length))

theorem pyRange3_length (start stop step : Nat) :
    (pyRange3 start stop step).length = (stop - start + step - 1) / step := by
  simp [pyRange3]

theorem chunksOf_length (c : Nat) (l : List α) :
    (chunksOf c l).length = (l.length + c - 1) / c := by
  simp [chunksOf, pyRange3]

theorem pyRange3_zero_eq_nil (c : Nat) (hc : 0 < c) : pyRange3 0 0 c = [] := by
  have h : (c - 1) / c = 0 := Nat.div_eq_of_lt (by omega)
  simp [pyRange3, h]

theorem pyRange3_zero_succ (c n : Nat) (hc : 0 < c) (hn : 0 < n) :
    pyRange3 0 n c = 0 :: (pyRange3 0 (n - c) c).map (fun x => c + x) := by
  have hK : (n - 0 + c - 1) / c = (n - c - 0 + c - 1) / c + 1 := by
    rcases le_or_lt n c with h | h
    · have h1 : n + c - 1 = (n - 1) + c := by omega
      have h2 : n - c = 0 := by omega
      have h3 : (n - 1) / c = 0 := Nat.div_eq_of_lt (by omega)
      have h4 : (0 - 0 + c - 1) / c = 0 := Nat.div_eq_of_lt (by omega)
      simp only [Nat.sub_zero, h1, h2, Nat.add_div_right _ hc, h3, h4]
    · have h1 : n + c - 1 = (n - c + c - 1) + c := by omega
      simp only [Nat.sub_zero, h1, Nat.add_div_right _ hc]
  rw [pyRange3, hK, List.range_succ_eq_map]
  simp only [List.map_cons, List.map_map, pyRange3]
  congr 1
  apply List.map_congr_left
  intro k _
  simp only [Function.comp, Nat.mul_succ]
  omega

theorem chunksOf_nil (c : Nat) (hc : 0 < c) : chunksOf c ([] : List α) = [] := by
  simp [chunksOf, pyRange3_zero_eq_nil c hc]

theorem chunksOf_cons_eq (c : Nat) (hc : 0 < c) (l : List α) (hl : l ≠ []) :
    chunksOf c l = l.take c :: chunksOf c (l.drop c) := by
  have hn : 0 < l.length := List.length_pos.mpr hl
  rw [chunksOf, pyRange3_zero_succ c l.length hc hn]
  simp only [List.map_cons, List.map_map]
  congr 1
  · simp only [pySlice, List.drop_zero, Nat.sub_zero]
    rw [List.take_eq_take]
    try omega
  · rcases le_or_lt c l.length with hcn | hcn
    · rw [chunksOf, List.length_drop]
      apply List.map_congr_left
      intro k _
      simp only [Function.comp, pySlice, List.drop_drop, List.length_drop]
      congr 1
      omega
    · have hdrop : l.drop c = [] := List.drop_eq_nil_of_le (by omega)
      have hsub : l.length - c = 0 := by omega
      rw [hsub, pyRange3_zero_eq_nil c hc, hdrop, chunksOf_nil c hc]
      simp

theorem flatten_chunksOf_fuel (c : Nat) (hc : 0 < c) :
    ∀ (fuel : Nat) (l : List α), l.length ≤ fuel → (chunksOf c l).flatten = l := by
  intro fuel
  induction fuel with
  | zero =>
    intro l h
    have : l = [] := List.length_eq_zero.mp (by omega)
    subst this
    simp [chunksOf_nil c hc]
  | succ m ih =>
    intro l h
    rcases eq_or_ne l [] with rfl | hl
    · simp [chunksOf_nil c hc]
    · rw [chunksOf_cons_eq c hc l hl, List.flatten_cons]
      have hlen : (l.drop c).length ≤ m := by
        rw [List.length_drop]
        have : 0 < l.length := List.length_pos.mpr hl
        omega
      rw [ih (l.drop c) hlen, List.take_append_drop]

theorem flatten_chunksOf (c : Nat) (hc : 0 < c) (l : List α) :
    (chunksOf c l).flatten = l :=
  flatten_chunksOf_fuel c hc l.length l le_rfl

theorem sum_length_chunksOf (c : Nat) (hc : 0 < c) (l : List α) :
    ((chunksOf c l).map List.length).sum = l.length := by
  rw [← List.length_flatten, flatten_chunksOf c hc]

theorem chunk_window_full (c n i : Nat) (hc : 0 < c) (h : i + 1 < (n + c - 1) / c) :
    c * i + c ≤ n := by
  have h1 : 0 < n := by
    by_contra hn0
    have hz : n = 0 := by omega
    rw [hz] at h
    have : (0 + c - 1) / c = 0 := Nat.div_eq_of_lt (by omega)
    omega
  have h2 : (n + c - 1) / c = (n - 1) / c + 1 := by
    have he : n + c - 1 = (n - 1) + c := by omega
    rw [he, Nat.add_div_right _ hc]
  have h3 : i + 1 ≤ (n - 1) / c := by omega
  have h4 : c * (i + 1) ≤ c * ((n - 1) / c) := Nat.mul_le_mul_left c h3
  have h5 : c * ((n - 1) / c) ≤ n - 1 := Nat.mul_div_le (n - 1) c
  have h6 : c * (i + 1) = c * i + c := by rw [Nat.mul_succ]
  omega

theorem chunksOf_getD_length (c : Nat) (hc : 0 < c) (l : List α)
    (i : Nat) (h : i + 1 < (chunksOf c l).length) :
    ((chunksOf c l).getD i []).length = c := by
  have hK := chunksOf_length c l
  have hi : i < (chunksOf c l).length := by omega
  rw [List.getD_eq_getElem _ _ hi]
  have hub : c * i + c ≤ l.length := chunk_window_full c l.length i hc (by omega)
  simp only [chunksOf, pyRange3, Nat.sub_zero, List.getElem_map, List.getElem_range,
    pySlice, List.length_take, List.length_drop, Nat.zero_add]
  omega

/-! Conversion pipeline, embedded from convert_to_streaming_format
(custom_streaming.py lines 211-289). -/

/-- Column-type classification of convert_to_streaming_format (lines
239-251): the if/elif chain over pd.api.types dtype predicates ending in a
catch-all 'str'. -/
def inferColType : Dtype → String
  | .dInt => "int"
  | .dFloat => "float"
  | .dBool => "bool"
  | .dDatetime => "datetime"
  | .dObj => "str"

/-- Embedding of the row slice df.iloc[i:i+c] on a column-oriented frame. -/
def Frame.sliceRows (f : Frame) (i c : Nat) : Frame :=
  { nrows := min (i + c) f.nrows - i
    cols := f.cols.map (fun col => (col.1, col.2.1, pySlice col.2.2 i (i + c))) }

/-- Shard frames produced by convert_to_streaming_format (lines 253-262):
for i in range(0, len(df), chunk_size) the shard is df.iloc[i:i+chunk_size],
in loop order. -/
def convertShards (df : Frame) (chunk_size : Nat) : List Frame :=
  (pyRange3 0 df.nrows chunk_size).map (fun i => df.sliceRows i chunk_size)

/-- Left pad of a numeral to five digits, as in the format f-string 05d. -/
def pad5 (k : Nat) : String :=
  let s := toString k
  String.mk (List.replicate (5 - s.length) '0') ++ s

/-- Shard file name for the shard starting at row i (lines 257, 264-273):
ordinal i / chunk_size, .parquet extension, plus .zstd suffix when the
shard is compressed. -/
def shardFileName (compression : String) (chunk_size i : Nat) : String :=
  let base := "shard." ++ pad5 (i / chunk_size) ++ ".parquet"
  if compression = "zstd" then base ++ ".zstd" else base

/-- Manifest record written as index.json (lines 277-286). -/
structure IndexFile where
  samples : Nat
  columns : List (String × String)
  shards : List String
deriving DecidableEq, Repr

/-- Embedding of convert_to_streaming_format (lines 211-289): classify
column dtypes, split the frame into chunk_size-row shards in original
order, name the shard files, and build the index record. -/
def convert_to_streaming_format (df : Frame) (compression : String)
    (chunk_size : Nat) : List Frame × IndexFile :=
  let columns := df.cols.map (fun col => (col.1, inferColType col.2.1))
  let shards := convertShards df chunk_size
  let names := (pyRange3 0 df.nrows chunk_size).map
    (fun i => shardFileName compression chunk_size i)
  (shards, { samples := df.nrows, columns := columns, shards := names })

/-! Manifest loading, embedded from _load_index and __init__
(custom_streaming.py lines 52-58 and 71-79). -/

/-- Parsed content of index.json as a JSON object whose three expected
fields may each be absent. -/
structure IndexJson where
  samples : Option Nat
  columns : Option (List (String × String))
  shards : Option (List String)
deriving DecidableEq, Repr

/-- Reader-side state set by _load_index (lines 71-79). -/
structure LoadedIndex where
  length : Nat
  columns : List (String × String)
  shards : List String
deriving DecidableEq, Repr

/-- Embedding of _load_index (lines 71-79): every field is read with
dict.get and a default value (samples 0, columns empty, shards empty). -/
def load_index (j : IndexJson) : LoadedIndex :=
  { length := j.samples.getD 0
    columns := j.columns.getD []
    shards := j.shards.getD [] }

/-- Error events raised by the reader, distinguished by raise site. -/
inductive StreamError where
  | unsupportedFormat
  | indexOutOfRange
  | ilocOutOfBounds
  | emptyShardList
  | decodeFailure
  | emptySequence
deriving DecidableEq, Repr

/-- Embedding of the directory branch of __init__ (lines 52-58): raise
ValueError when index.json is absent from the directory, otherwise run
_load_index on the parsed JSON object. -/
def initFromDirectory (hasIndexJson : Bool) (j : IndexJson) :
    Except StreamError LoadedIndex :=
  if hasIndexJson then .ok (load_index j) else .error .unsupportedFormat

/-! Compressed shard reading, embedded from the .zstd branch of
_load_chunk (custom_streaming.py lines 119-138), with the on-disk
temporary file made explicit. -/

/-- Decompressed payload of a .zstd shard: either a parseable columnar
block or malformed bytes on which pd.read_parquet raises. -/
inductive ParquetBytes where
  | table (f : Frame)
  | malformed
deriving DecidableEq, Repr

/-- Compressed shard file: a valid zstd envelope around a payload, or
corrupt bytes on which decompression itself raises. -/
inductive ZstdFile where
  | envelope (p : ParquetBytes)
  | corrupt
deriving DecidableEq, Repr

/-- Embedding of the .zstd branch of _load_chunk (lines 119-138).  The
source decompresses the whole file, writes the result to a
NamedTemporaryFile created with delete=False, calls pd.read_parquet on
that path, and only afterwards calls os.unlink; no try/finally scopes the
unlink.  The Bool records whether the temporary file is still allocated
when control leaves the function (true means leaked). -/
def readZstdShard : ZstdFile → Except StreamError Frame × Bool
  | .corrupt => (.error .decodeFailure, false)
  | .envelope p =>
    match p with
    | .table f => (.ok f, false)
    | .malformed => (.error .decodeFailure, true)

/-! Supporting lemmas about the shard split. -/

theorem convertShards_map_nrows (df : Frame) (c : Nat) :
    (convertShards df c).map Frame.nrows =
      (chunksOf c (List.range df.nrows)).map List.length := by
  simp only [convertShards, chunksOf, List.length_range, List.map_map]
  apply List.map_congr_left
  intro i _
  simp only [Function.comp, Frame.sliceRows, pySlice, List.length_take,
    List.length_drop, List.length_range]
  omega

/-- Concrete ten-row single-column frame used by several witnesses. -/
def df10 : Frame :=
  { nrows := 10
    cols := [("x", Dtype.dInt,
      [Value.vInt 0, Value.vInt 1, Value.vInt 2, Value.vInt 3, Value.vInt 4,
       Value.vInt 5, Value.vInt 6, Value.vInt 7, Value.vInt 8, Value.vInt 9])] }

theorem df10_wf : df10.wf := by
  intro col hcol
  simp only [df10, List.mem_singleton] at hcol
  subst hcol
  rfl

/-- Concrete one-column datetime frame. -/
def dfDt : Frame :=
  { nrows := 1
    cols := [("ts", Dtype.dDatetime, [Value.vDatetime "2024-01-01T00:00:00"])] }

/-- C8: for every valid chunk_size, the shard writer produces exactly
ceil(sample_count / chunk_size) shards, the per-shard record counts sum to
sample_count, every shard except possibly the last holds exactly
chunk_size rows, and concatenating the shards column by column reproduces
the original columns in original order. -/
theorem c8_shard_writer (df : Frame) (c : Nat) (hc : 0 < c) (hwf : df.wf) :
    (convertShards df c).length = (df.nrows + c - 1) / c ∧
    ((convertShards df c).map Frame.nrows).sum = df.nrows ∧
    (∀ i, i + 1 < (convertShards df c).length →
      ((convertShards df c).getD i (Frame.mk 0 [])).nrows = c) ∧
    (∀ k, k < df.cols.length →
      ((convertShards df c).map
        (fun s => (s.cols.getD k ("", Dtype.dObj, [])).2.2)).flatten =
        (df.cols.getD k ("", Dtype.dObj, [])).2.2) := by
  have hlen : (convertShards df c).length = (df.nrows + c - 1) / c := by
    simp [convertShards, pyRange3]
  refine ⟨hlen, ?_, ?_, ?_⟩
  · rw [convertShards_map_nrows df c, sum_length_chunksOf c hc, List.length_range]
  · intro i hi
    have hi2 : i < (convertShards df c).length := by omega
    have hub : c * i + c ≤ df.nrows :=
      chunk_window_full c df.nrows i hc (by omega)
    rw [List.getD_eq_getElem _ _ hi2]
    simp only [convertShards, pyRange3, Nat.sub_zero, List.getElem_map,
      List.getElem_range, Frame.sliceRows, Nat.zero_add]
    omega
  · intro k hk
    have hmem : df.cols[k] ∈ df.cols := List.getElem_mem hk
    have hlenv : (df.cols[k]).2.2.length = df.nrows := hwf _ hmem
    have hgetD : df.cols.getD k ("", Dtype.dObj, []) = df.cols[k] :=
      List.getD_eq_getElem _ _ hk
    rw [hgetD]
    have hmap : (convertShards df c).map
        (fun s => (s.cols.getD k ("", Dtype.dObj, [])).2.2) =
        chunksOf c (df.cols[k]).2.2 := by
      simp only [chunksOf, hlenv, convertShards, List.map_map]
      apply List.map_congr_left
      intro i _
      simp only [Function.comp, Frame.sliceRows]
      rw [List.getD_eq_getElem _ _ (by simpa using hk), List.getElem_map]
      simp only [pySlice]
      rw [List.take_eq_take]
      simp only [List.length_drop, hlenv]
      omega
    rw [hmap, flatten_chunksOf c hc]

/-- Witness for C8 on the ten-row frame with chunk_size 4: three shards of
sizes 4, 4, 2 summing to 10. -/
theorem c8_shard_writer_witness :
    (convertShards df10 4).length = 3 ∧
    ((convertShards df10 4).map Frame.nrows).sum = 10 ∧
    ((convertShards df10 4).getD 0 (Frame.mk 0 [])).nrows = 4 := by
  have h := c8_shard_writer df10 4 (by norm_num) df10_wf
  exact ⟨h.1, h.2.1, h.2.2.1 0 (by rw [h.1]; decide)⟩

/-- C7 counterexample: a timestamp-valued column is classified as
'datetime' in the written manifest, a tag outside the four claimed types
int, float, bool, str. -/
theorem c7_datetime_tag_counterexample :
    (convert_to_streaming_format dfDt "none" 4).2.columns = [("ts", "datetime")] ∧
    "datetime" ∉ (["int", "float", "bool", "str"] : List String) := by
  refine ⟨rfl, by decide⟩

/-- C7 amended: schema inference assigns every column exactly one of the
five tags int, float, bool, datetime, str (timestamp columns get
'datetime', not 'str'); any unclassifiable column defaults to 'str' and no
column is dropped. -/
theorem c7_schema_inference_total (df : Frame) (compression : String) (c : Nat) :
    ((convert_to_streaming_format df compression c).2.columns).length =
      df.cols.length ∧
    ∀ p ∈ (convert_to_streaming_format df compression c).2.columns,
      p.2 ∈ (["int", "float", "bool", "datetime", "str"] : List String) := by
  constructor
  · simp [convert_to_streaming_format]
  · intro p hp
    simp only [convert_to_streaming_format, List.mem_map] at hp
    obtain ⟨col, hcol, rfl⟩ := hp
    obtain ⟨nm, dt, vals⟩ := col
    cases dt <;> simp [inferColType]

/-- C6 counterexample: a manifest JSON object missing all three required
fields loads successfully, with length silently defaulted to 0 and empty
column and shard lists, instead of failing with CorruptIndex. -/
theorem c6_missing_fields_counterexample :
    initFromDirectory true { samples := none, columns := none, shards := none } =
      .ok { length := 0, columns := [], shards := [] } := rfl

/-- C6 amended: once the manifest file is present and parses, loading
never fails; each absent field is silently replaced by a default (samples
0, columns empty, shards empty). -/
theorem c6_load_index_defaults (j : IndexJson) :
    initFromDirectory true j = .ok (load_index j) ∧
    (load_index j).length = j.samples.getD 0 ∧
    (load_index j).columns = j.columns.getD [] ∧
    (load_index j).shards = j.shards.getD [] :=
  ⟨rfl, rfl, rfl, rfl⟩

/-- C9: on the success path the temporary decompression file is removed,
but when parsing the decompressed payload fails the unlink after
pd.read_parquet is skipped and the temporary file is leaked, contradicting
the claim that every exit path releases it. -/
theorem c9_temp_file_leak (f : Frame) :
    readZstdShard (ZstdFile.envelope (ParquetBytes.table f)) = (.ok f, false) ∧
    readZstdShard (ZstdFile.envelope ParquetBytes.malformed) =
      (.error .decodeFailure, true) :=
  ⟨rfl, rfl⟩

/-! Reader-side dataset, embedded from CustomStreamingDataset
(custom_streaming.py lines 19-208), custom_streaming format branch. -/

/-- Reader-side state of CustomStreamingDataset for the custom_streaming
format: the __init__ fields consulted by _load_chunk, __iter__ and
__getitem__.  Shards are held as their loaded frames. -/
structure CustomStreaming where
  length : Nat
  chunk_size : Nat
  batch_size : Nat
  shuffle : Bool
  shards : List Frame
deriving DecidableEq, Repr

/-- Embedding of the custom_streaming branch of _load_chunk (lines
113-141): the requested start and end indices are ignored and the first
shard of the shard list is always read whole (self.shards[0]); an empty
shard list raises IndexError at the subscript. -/
def loadChunk (ds : CustomStreaming) (start_idx end_idx : Nat) :
    Except StreamError Frame :=
  match ds.shards.head? with
  | some f => Except.ok f
  | none => Except.error StreamError.emptyShardList

/-- Specification-side definition, following the words of the chunk-loader
contract (spec section 4.5): the values of column k at global indices
[start_idx, end_idx) of the concatenation of all shards in manifest
order. -/
def specChunkColumn (shards : List Frame) (k start_idx end_idx : Nat) :
    List Value :=
  pySlice ((shards.map (fun s => (s.cols.getD k ("", Dtype.dObj, [])).2.2)).flatten)
    start_idx end_idx

/-- Per-column scalar extraction of __getitem__ (lines 204-206): the loop
for col in chunk_data.columns reads chunk_data[col].iloc[idx-chunk_start]
column by column; the first out-of-bounds iloc raises and aborts the
loop. -/
def extractCols (i0 : Nat) :
    List (String × Dtype × List Value) → Except StreamError (List (String × Value))
  | [] => Except.ok []
  | col :: rest =>
    match col.2.2[i0]? with
    | some v =>
      match extractCols i0 rest with
      | Except.ok tl => Except.ok ((col.1, v) :: tl)
      | Except.error e => Except.error e
    | none => Except.error StreamError.ilocOutOfBounds

/-- Embedding of __getitem__ (lines 185-208): bounds guard raising the
explicit IndexError (the spec's IndexOutOfRange), chunk-aligned window
computation, chunk load, and per-column scalar extraction at the
chunk-local offset (pandas iloc raising its own distinct IndexError when
the offset exceeds the loaded frame). -/
def getItem (ds : CustomStreaming) (idx : Int) :
    Except StreamError (List (String × Value)) :=
  if idx < 0 ∨ (ds.length : Int) ≤ idx then Except.error StreamError.indexOutOfRange
  else
    let i := idx.toNat
    let chunk_start := i / ds.chunk_size * ds.chunk_size
    let chunk_end := min (chunk_start + ds.chunk_size) ds.length
    match loadChunk ds chunk_start chunk_end with
    | Except.error e => Except.error e
    | Except.ok frame => extractCols (i - chunk_start) frame.cols

/-- Concrete reader over the ten-row frame converted with shard size 4
(shards of sizes 4, 4, 2), reader chunk_size 4, batch_size 3. -/
def ds10r : CustomStreaming :=
  { length := 10
    chunk_size := 4
    batch_size := 3
    shuffle := false
    shards := convertShards df10 4 }

/-- C1: the chunk loader reads only shards[0] whatever range is requested.
Loading global range [4, 8) of the three-shard ten-row dataset returns the
first shard (rows 0-3) instead of the rows 4-7 that the contract requires
(the specification-side specChunkColumn). -/
theorem c1_load_chunk_ignores_range :
    loadChunk ds10r 4 8 = Except.ok (df10.sliceRows 0 4) ∧
    ((df10.sliceRows 0 4).cols.getD 0 ("", Dtype.dObj, [])).2.2 =
      [Value.vInt 0, Value.vInt 1, Value.vInt 2, Value.vInt 3] ∧
    specChunkColumn ds10r.shards 0 4 8 =
      [Value.vInt 4, Value.vInt 5, Value.vInt 6, Value.vInt 7] := by
  refine ⟨rfl, rfl, rfl⟩

theorem extractCols_ne_oor (i0 : Nat) (cols : List (String × Dtype × List Value)) :
    extractCols i0 cols ≠ Except.error StreamError.indexOutOfRange := by
  induction cols with
  | nil => simp [extractCols]
  | cons c cs ih =>
    cases hg : c.2.2[i0]? with
    | none => simp [extractCols, hg]
    | some v =>
      cases hm : extractCols i0 cs with
      | ok tl => simp [extractCols, hg, hm]
      | error e =>
        simp only [extractCols, hg, hm]
        rw [hm] at ih
        simpa using ih

theorem extractCols_eq_ok (i0 : Nat) (cols : List (String × Dtype × List Value))
    (h : ∀ col ∈ cols, i0 < col.2.2.length) :
    extractCols i0 cols =
      Except.ok (cols.map (fun col => (col.1, col.2.2.getD i0 (Value.vInt 0)))) := by
  induction cols with
  | nil => rfl
  | cons c cs ih =>
    have hc : i0 < c.2.2.length := h c (by simp)
    have hg : c.2.2[i0]? = some c.2.2[i0] := List.getElem?_eq_getElem hc
    have hd : c.2.2.getD i0 (Value.vInt 0) = c.2.2[i0] :=
      List.getD_eq_getElem _ _ hc
    simp [extractCols, hg, ih (fun col hcol => h col (by simp [hcol])), hd]

/-- C5 amended: getItem fails with the explicit IndexOutOfRange exactly
when idx < 0 or idx >= sample_count (for every dataset), and
get(sample_count - 1) returns the last row written only under the proviso
that the dataset consists of a single shard holding all rows and fits in
one reader chunk; in general it returns the first shard's row at the
chunk-local offset instead (see the counterexample). -/
theorem c5_getItem_boundary (f : Frame) (hwf : f.wf) (ds : CustomStreaming)
    (hs : ds.shards = [f]) (hlen : ds.length = f.nrows)
    (hfit : ds.length ≤ ds.chunk_size) (hpos : 0 < ds.length) :
    (∀ (ds2 : CustomStreaming) (idx : Int),
      getItem ds2 idx = Except.error StreamError.indexOutOfRange ↔
        (idx < 0 ∨ (ds2.length : Int) ≤ idx)) ∧
    getItem ds ((ds.length : Int) - 1) =
      Except.ok (f.cols.map (fun col =>
        (col.1, col.2.2.getD (ds.length - 1) (Value.vInt 0)))) := by
  constructor
  · intro ds2 idx
    by_cases hg : idx < 0 ∨ (ds2.length : Int) ≤ idx
    · simp [getItem, hg]
    · simp only [getItem, if_neg hg]
      cases hh : ds2.shards.head? with
      | none =>
        simp only [loadChunk, hh]
        exact ⟨fun habs => by simp at habs, fun habs => absurd habs hg⟩
      | some f2 =>
        simp only [loadChunk, hh]
        exact ⟨fun habs => absurd habs (extractCols_ne_oor _ _),
               fun habs => absurd habs hg⟩
  · have hg : ¬((ds.length : Int) - 1 < 0 ∨
        (ds.length : Int) ≤ (ds.length : Int) - 1) := by omega
    have hi : ((ds.length : Int) - 1).toNat = ds.length - 1 := by omega
    have hdiv : (ds.length - 1) / ds.chunk_size = 0 :=
      Nat.div_eq_of_lt (by omega)
    simp only [getItem, if_neg hg, hi, hdiv, Nat.zero_mul, loadChunk, hs,
      List.head?_cons, Nat.sub_zero]
    exact extractCols_eq_ok _ _ (fun col hcol => by rw [hwf col hcol]; omega)

/-- Concrete single-shard reader over the ten-row frame: all ten rows in
one shard, reader chunk_size 1000. -/
def ds10w : CustomStreaming :=
  { length := 10
    chunk_size := 1000
    batch_size := 3
    shuffle := false
    shards := [df10] }

/-- Witness for C5 on the single-shard ten-row dataset: get(-1) and
get(10) fail with the explicit IndexOutOfRange, get(9) returns the last
row. -/
theorem c5_getItem_boundary_witness :
    getItem ds10w (-1) = Except.error StreamError.indexOutOfRange ∧
    getItem ds10w 10 = Except.error StreamError.indexOutOfRange ∧
    getItem ds10w 9 = Except.ok [("x", Value.vInt 9)] := by
  have h := c5_getItem_boundary df10 df10_wf ds10w rfl rfl (by decide) (by decide)
  refine ⟨(h.1 ds10w (-1)).mpr (Or.inl (by decide)),
          (h.1 ds10w 10).mpr (Or.inr (by decide)), ?_⟩
  exact h.2

/-- C5 counterexample: on the three-shard ten-row dataset with reader
chunk_size 4, get(9) = get(sample_count - 1) succeeds but returns the
first shard's row at chunk-local offset 1 (value 1), not the last row
written (value 9), because the chunk loader always reads shards[0]. -/
theorem c5_last_row_counterexample :
    getItem ds10r 9 = Except.ok [("x", Value.vInt 1)] ∧
    [("x", Value.vInt 1)] ≠ [("x", Value.vInt 9)] := by
  exact ⟨rfl, by decide⟩

/-! Batch iteration, embedded from __iter__ (custom_streaming.py lines
143-183). -/

/-- Rendered batch column (lines 170-181): a numeric-dtype column becomes
a torch float32 tensor of the coerced values; any other column is kept as
the raw value array. -/
inductive BatchCol where
  | floatTensor (vals : List Value)
  | rawArray (vals : List Value)
deriving DecidableEq, Repr

/-- Row payload carried by a rendered batch column. -/
def BatchCol.payload : BatchCol → List Value
  | .floatTensor vs => vs
  | .rawArray vs => vs

/-- Number of rows in a rendered batch column. -/
def BatchCol.rowCount (bc : BatchCol) : Nat := bc.payload.length

/-- Value-level effect of torch.tensor(col_data, dtype=torch.float32) on a
numeric column: integers and 0/1-stored booleans become floats.  Float32
rounding of unrepresentable magnitudes is not modelled; the concrete
tables below stay in the exactly representable range.  Non-numeric values
never reach this conversion (it is guarded by is_numeric_dtype) and are
left unchanged. -/
def torchFloat32 : Value → Value
  | .vInt n => .vFloat n
  | .vBool b => .vFloat (if b then 1 else 0)
  | .vFloat q => .vFloat q
  | v => v

/-- Rendering of one batch column (lines 176-181): numeric dtypes are
converted to a float32 tensor, others kept as the raw selected values. -/
def renderCol (dt : Dtype) (sel : List Value) : BatchCol :=
  if isNumericDtype dt then BatchCol.floatTensor (sel.map torchFloat32)
  else BatchCol.rawArray sel

/-- Embedding of the positional selection chunk_data[col].iloc[batch_indices]
(line 174): pandas raises IndexError when any position is out of bounds. -/
def ilocList (vals : List Value) : List Nat → Except StreamError (List Value)
  | [] => Except.ok []
  | i :: rest =>
    match vals[i]? with
    | some v =>
      match ilocList vals rest with
      | Except.ok tl => Except.ok (v :: tl)
      | Except.error e => Except.error e
    | none => Except.error StreamError.ilocOutOfBounds

/-- Batch construction (lines 170-183): for each column of the loaded
chunk, select the batch positions and render the column. -/
def buildBatchCols (batch_indices : List Nat) :
    List (String × Dtype × List Value) →
      Except StreamError (List (String × BatchCol))
  | [] => Except.ok []
  | col :: rest =>
    match ilocList col.2.2 batch_indices with
    | Except.ok sel =>
      match buildBatchCols batch_indices rest with
      | Except.ok tl => Except.ok ((col.1, renderCol col.2.1 sel) :: tl)
      | Except.error e => Except.error e
    | Except.error e => Except.error e

/-- One chunk window's step results in __iter__ (lines 158-183): slice the
permutation at [chunk_start, min(chunk_start+chunk_size, length)), load
the span [min(chunk_indices), max(chunk_indices)+1) through _load_chunk,
then build one batch per batch_size window of the chunk indices.  An empty
chunk would make python's min()/max() raise ValueError. -/
def chunkBatches (ds : CustomStreaming) (perm : List Nat) (chunk_start : Nat) :
    List (Except StreamError (List (String × BatchCol))) :=
  let chunk_end := min (chunk_start + ds.chunk_size) ds.length
  let ci := pySlice perm chunk_start chunk_end
  match ci.min?, ci.max? with
  | some lo, some hi =>
    match loadChunk ds lo (hi + 1) with
    | Except.error e => [Except.error e]
    | Except.ok frame =>
      (pyRange3 0 ci.length ds.batch_size).map (fun b =>
        buildBatchCols (pySlice ci b (min (b + ds.batch_size) ci.length))
          frame.cols)
  | _, _ => [Except.error StreamError.emptySequence]

/-- All step results of one __iter__ pass over a fixed permutation: the
outer loop for chunk_start in range(0, self.length, self.chunk_size). -/
def iterSteps (ds : CustomStreaming) (perm : List Nat) :
    List (Except StreamError (List (String × BatchCol))) :=
  ((pyRange3 0 ds.length ds.chunk_size).map
    (fun cs => chunkBatches ds perm cs)).flatten

/-- Yield sequence of a python generator run: batches yielded before the
first raised exception, together with that exception if one aborts the
pass. -/
def collectYields : List (Except StreamError α) → List α × Option StreamError
  | [] => ([], none)
  | Except.ok b :: rest =>
    let r := collectYields rest
    (b :: r.1, r.2)
  | Except.error e :: _ => ([], some e)

/-- Full __iter__ pass over a fixed permutation. -/
def iterRun (ds : CustomStreaming) (perm : List Nat) :
    List (List (String × BatchCol)) × Option StreamError :=
  collectYields (iterSteps ds perm)

/-- Full __iter__ pass with shuffle disabled (lines 150-155: indices =
list(range(self.length)), no shuffle call). -/
def iterNoShuffle (ds : CustomStreaming) :
    List (List (String × BatchCol)) × Option StreamError :=
  iterRun ds (List.range ds.length)

/-- Index structure of one __iter__ pass (lines 158-168), independent of
loading: the permutation is sliced into chunk_size windows and each window
into batch_size selections, mirroring the two nested loops. -/
def batchIndexPlan (c b : Nat) (perm : List Nat) : List (List Nat) :=
  ((chunksOf c perm).map (chunksOf b)).flatten

/-! Supporting lemmas about the windowed batch plan and batch building. -/

theorem map_getD_range (l : List α) (d : α) :
    (List.range l.length).map (fun i => l.getD i d) = l := by
  apply List.ext_getElem
  · simp
  · intro i h1 h2
    simp only [List.getElem_map, List.getElem_range]
    rw [List.getD_eq_getElem l d h2]

theorem chunksOf_mem_length (b : Nat) (hb : 0 < b) (l : List α) (s : List α)
    (hs : s ∈ chunksOf b l) : 0 < s.length ∧ s.length ≤ b := by
  simp only [chunksOf, List.mem_map] at hs
  obtain ⟨i, hi, rfl⟩ := hs
  simp only [pyRange3, List.mem_map, List.mem_range, Nat.sub_zero] at hi
  obtain ⟨k, hk, rfl⟩ := hi
  have hn : 0 < l.length := by
    by_contra h0
    have hz : l.length = 0 := by omega
    rw [hz] at hk
    have : (0 + b - 1) / b = 0 := Nat.div_eq_of_lt (by omega)
    omega
  have hlt : b * k < l.length := by
    have h2 : (l.length + b - 1) / b = (l.length - 1) / b + 1 := by
      have he : l.length + b - 1 = (l.length - 1) + b := by omega
      rw [he, Nat.add_div_right _ hb]
    have h3 : k ≤ (l.length - 1) / b := by omega
    have h4 : b * k ≤ b * ((l.length - 1) / b) := Nat.mul_le_mul_left b h3
    have h5 : b * ((l.length - 1) / b) ≤ l.length - 1 := Nat.mul_div_le _ b
    omega
  simp only [pySlice, List.length_take, List.length_drop]
  omega

theorem chunksOf_mem_subset (b : Nat) (l : List α) (s : List α)
    (hs : s ∈ chunksOf b l) : ∀ x ∈ s, x ∈ l := by
  simp only [chunksOf, List.mem_map] at hs
  obtain ⟨i, _, rfl⟩ := hs
  intro x hx
  exact List.mem_of_mem_drop (List.mem_of_mem_take hx)

theorem batchIndexPlan_flatten (c b : Nat) (hc : 0 < c) (hb : 0 < b)
    (perm : List Nat) : (batchIndexPlan c b perm).flatten = perm := by
  rw [batchIndexPlan, List.flatten_flatten, List.map_map]
  have h1 : (chunksOf c perm).map (List.flatten ∘ chunksOf b) =
      (chunksOf c perm).map id := by
    apply List.map_congr_left
    intro w _
    simp only [Function.comp, id]
    exact flatten_chunksOf b hb w
  rw [h1, List.map_id, flatten_chunksOf c hc]

theorem batchIndexPlan_mem (c b : Nat) (hb : 0 < b) (perm : List Nat)
    (s : List Nat) (hs : s ∈ batchIndexPlan c b perm) :
    (0 < s.length ∧ s.length ≤ b) ∧ ∀ x ∈ s, x ∈ perm := by
  rw [batchIndexPlan] at hs
  rcases List.mem_flatten.mp hs with ⟨bl, hbl, hsbl⟩
  rcases List.mem_map.mp hbl with ⟨w, hw, rfl⟩
  exact ⟨chunksOf_mem_length b hb w s hsbl,
    fun x hx => chunksOf_mem_subset c perm w hw x
      (chunksOf_mem_subset b w s hsbl x hx)⟩

theorem batchIndexPlan_length (c b : Nat) (perm : List Nat) :
    (batchIndexPlan c b perm).length =
      ((chunksOf c perm).map (fun w => (w.length + b - 1) / b)).sum := by
  rw [batchIndexPlan, List.length_flatten, List.map_map]
  congr 1
  apply List.map_congr_left
  intro w _
  simp only [Function.comp]
  exact chunksOf_length b w

theorem ilocList_eq_ok (vals : List Value) (bi : List Nat)
    (h : ∀ i ∈ bi, i < vals.length) :
    ilocList vals bi =
      Except.ok (bi.map (fun i => vals.getD i (Value.vInt 0))) := by
  induction bi with
  | nil => rfl
  | cons i rest ih =>
    have hi : i < vals.length := h i (by simp)
    have hg : vals[i]? = some vals[i] := List.getElem?_eq_getElem hi
    have hd : vals.getD i (Value.vInt 0) = vals[i] := List.getD_eq_getElem _ _ hi
    simp [ilocList, hg, ih (fun j hj => h j (by simp [hj])), hd]

theorem buildBatchCols_eq_ok (bi : List Nat)
    (cols : List (String × Dtype × List Value))
    (h : ∀ col ∈ cols, ∀ i ∈ bi, i < col.2.2.length) :
    buildBatchCols bi cols = Except.ok (cols.map (fun col =>
      (col.1, renderCol col.2.1
        (bi.map (fun i => col.2.2.getD i (Value.vInt 0)))))) := by
  induction cols with
  | nil => rfl
  | cons col rest ih =>
    have h1 := ilocList_eq_ok col.2.2 bi (h col (by simp))
    simp [buildBatchCols, h1, ih (fun cl hcl => h cl (by simp [hcl]))]

theorem collectYields_map_ok (g : β → α) (L : List β) :
    collectYields (L.map (fun x => Except.ok (g x))) = (L.map g, none) := by
  induction L with
  | nil => rfl
  | cons x xs ih => simp [collectYields, ih]

theorem collectYields_mem (L : List (Except StreamError α)) (b : α)
    (hb : b ∈ (collectYields L).1) : Except.ok b ∈ L := by
  induction L with
  | nil => simp [collectYields] at hb
  | cons x rest ih =>
    cases x with
    | ok y =>
      simp only [collectYields, List.mem_cons] at hb
      rcases hb with rfl | hb
      · exact List.mem_cons_self _ _
      · exact List.mem_cons_of_mem _ (ih hb)
    | error e => simp [collectYields] at hb

theorem buildBatchCols_mem (bi : List Nat)
    (cols : List (String × Dtype × List Value))
    (out : List (String × BatchCol))
    (h : buildBatchCols bi cols = Except.ok out) :
    ∀ p ∈ out, ∃ dt vs sel, (p.1, dt, vs) ∈ cols ∧
      ilocList vs bi = Except.ok sel ∧ p.2 = renderCol dt sel := by
  induction cols generalizing out with
  | nil =>
    simp only [buildBatchCols] at h
    injection h with h2
    subst h2
    simp
  | cons col rest ih =>
    simp only [buildBatchCols] at h
    cases hil : ilocList col.2.2 bi with
    | error e => rw [hil] at h; exact absurd h (by simp)
    | ok sel =>
      rw [hil] at h
      cases hrec : buildBatchCols bi rest with
      | error e => rw [hrec] at h; exact absurd h (by simp)
      | ok tl =>
        rw [hrec] at h
        injection h with h2
        subst h2
        intro p hp
        rcases List.mem_cons.mp hp with rfl | hp2
        · exact ⟨col.2.1, col.2.2, sel, by simp, hil, rfl⟩
        · obtain ⟨dt, vs, sel2, hm, hi2, hr⟩ := ih tl hrec p hp2
          exact ⟨dt, vs, sel2, List.mem_cons_of_mem _ hm, hi2, hr⟩

theorem chunkBatches_mem_ok (ds : CustomStreaming) (perm : List Nat) (cs : Nat)
    (batch : List (String × BatchCol))
    (h : Except.ok batch ∈ chunkBatches ds perm cs) :
    ∃ f0 bi, ds.shards.head? = some f0 ∧
      buildBatchCols bi f0.cols = Except.ok batch := by
  simp only [chunkBatches] at h
  cases hmin : (pySlice perm cs (min (cs + ds.chunk_size) ds.length)).min? with
  | none => rw [hmin] at h; simp at h
  | some lo =>
    rw [hmin] at h
    cases hmax : (pySlice perm cs (min (cs + ds.chunk_size) ds.length)).max? with
    | none => rw [hmax] at h; simp at h
    | some hi =>
      rw [hmax] at h
      cases hh : ds.shards.head? with
      | none => simp only [loadChunk, hh] at h; simp at h
      | some f0 =>
        simp only [loadChunk, hh] at h
        rcases List.mem_map.mp h with ⟨bs, _, heq⟩
        exact ⟨f0, _, rfl, heq⟩

theorem iterRun_mem_ok (ds : CustomStreaming) (perm : List Nat)
    (batch : List (String × BatchCol)) (hb : batch ∈ (iterRun ds perm).1) :
    ∃ f0 bi, ds.shards.head? = some f0 ∧
      buildBatchCols bi f0.cols = Except.ok batch := by
  have h1 : Except.ok batch ∈ iterSteps ds perm := collectYields_mem _ _ hb
  rw [iterSteps] at h1
  rcases List.mem_flatten.mp h1 with ⟨blk, hblk, hmem⟩
  rcases List.mem_map.mp hblk with ⟨cs, _, rfl⟩
  exact chunkBatches_mem_ok ds perm cs batch hmem

/-- Uniform per-value effect of the batch rendering on a column of dtype
dt: the float32 coercion on numeric columns, identity otherwise. -/
def columnCoerce (dt : Dtype) (v : Value) : Value :=
  if isNumericDtype dt then torchFloat32 v else v

theorem renderCol_payload (dt : Dtype) (sel : List Value) :
    (renderCol dt sel).payload = sel.map (columnCoerce dt) := by
  cases hnum : isNumericDtype dt with
  | true =>
    have hcc : columnCoerce dt = torchFloat32 := by
      funext v
      simp [columnCoerce, hnum]
    simp [renderCol, hnum, BatchCol.payload, hcc]
  | false =>
    have hcc : columnCoerce dt = fun v => v := by
      funext v
      simp [columnCoerce, hnum]
    simp [renderCol, hnum, BatchCol.payload, hcc]

theorem iterSteps_closed (ds : CustomStreaming) (f : Frame)
    (hs : ds.shards = [f]) (hwf : f.wf) (hc : 0 < ds.chunk_size)
    (perm : List Nat) (hpl : perm.length = ds.length)
    (hbound : ∀ i ∈ perm, i < f.nrows) :
    iterSteps ds perm =
      (batchIndexPlan ds.chunk_size ds.batch_size perm).map
        (fun bi => Except.ok (f.cols.map (fun col =>
          (col.1, renderCol col.2.1
            (bi.map (fun i => col.2.2.getD i (Value.vInt 0))))))) := by
  have hCH : chunksOf ds.chunk_size perm =
      (pyRange3 0 ds.length ds.chunk_size).map
        (fun i => pySlice perm i (min (i + ds.chunk_size) ds.length)) := by
    rw [chunksOf, hpl]
  rw [iterSteps, batchIndexPlan, List.map_flatten, List.map_map, hCH,
    List.map_map]
  congr 1
  apply List.map_congr_left
  intro cs hcs
  simp only [Function.comp, chunkBatches]
  have hmem_ci : pySlice perm cs (min (cs + ds.chunk_size) ds.length) ∈
      chunksOf ds.chunk_size perm := by
    rw [hCH]
    exact List.mem_map_of_mem _ hcs
  have hpos : 0 < (pySlice perm cs (min (cs + ds.chunk_size) ds.length)).length :=
    (chunksOf_mem_length _ hc _ _ hmem_ci).1
  have hne : pySlice perm cs (min (cs + ds.chunk_size) ds.length) ≠ [] := by
    intro hnil
    rw [hnil] at hpos
    simp at hpos
  cases hmin : (pySlice perm cs (min (cs + ds.chunk_size) ds.length)).min? with
  | none => exact absurd (List.min?_eq_none_iff.mp hmin) hne
  | some lo =>
    cases hmax : (pySlice perm cs (min (cs + ds.chunk_size) ds.length)).max? with
    | none => exact absurd (List.max?_eq_none_iff.mp hmax) hne
    | some hi =>
      simp only [loadChunk, hs, List.head?_cons]
      rw [chunksOf, List.map_map]
      apply List.map_congr_left
      intro bs _
      simp only [Function.comp]
      apply buildBatchCols_eq_ok
      intro col hcol i hi2
      rw [hwf col hcol]
      exact hbound i (chunksOf_mem_subset ds.chunk_size perm _ hmem_ci i
        (List.mem_of_mem_drop (List.mem_of_mem_take hi2)))

/-- Concrete two-row boolean table. -/
def dfB : Frame :=
  { nrows := 2
    cols := [("flag", Dtype.dBool, [Value.vBool true, Value.vBool false])] }

/-- Reader over the converted single-shard streaming form of dfB. -/
def dsB : CustomStreaming :=
  { length := 2
    chunk_size := 4
    batch_size := 4
    shuffle := false
    shards := (convert_to_streaming_format dfB "none" 4).1 }

/-- Concrete single-shard ten-row reader with chunk_size 4 and
batch_size 3 (the spec's concrete scenario). -/
def ds10c : CustomStreaming :=
  { length := 10
    chunk_size := 4
    batch_size := 3
    shuffle := false
    shards := [df10] }

/-- C2 counterexample: sequential iteration over 10 samples with
chunk_size 4 and batch_size 3 yields batches of sizes 3, 1, 3, 1, 2 — the
batch windows restart inside every chunk window — not 3, 3, 3, 1. -/
theorem c2_batch_sizes_counterexample :
    ((iterNoShuffle ds10c).1.map (fun batch =>
      (batch.getD 0 ("", BatchCol.rawArray [])).2.rowCount)) = [3, 1, 3, 1, 2] ∧
    (iterNoShuffle ds10c).2 = none ∧
    ([3, 1, 3, 1, 2] : List Nat) ≠ [3, 3, 3, 1] := by
  exact ⟨rfl, rfl, by decide⟩

/-- C2 amended: the iterator slices the permutation into chunk_size
windows and batches each window independently, so every batch is nonempty
with at most batch_size entries (the last batch of every chunk window may
be short, so for 10 samples, chunk_size 4 and batch_size 3 the sizes are
3, 1, 3, 1, 2); concatenating all batch selections gives back exactly the
permutation, and the pass is finite with sum over windows of
ceil(window / batch_size) batches. -/
theorem c2_windowed_batching (c b : Nat) (hc : 0 < c) (hb : 0 < b)
    (perm : List Nat) :
    (batchIndexPlan c b perm).flatten = perm ∧
    (∀ s ∈ batchIndexPlan c b perm, 0 < s.length ∧ s.length ≤ b) ∧
    (batchIndexPlan c b perm).length =
      ((chunksOf c perm).map (fun w => (w.length + b - 1) / b)).sum := by
  exact ⟨batchIndexPlan_flatten c b hc hb perm,
    fun s hs => (batchIndexPlan_mem c b hb perm s hs).1,
    batchIndexPlan_length c b perm⟩

/-- Witness for C2 at chunk_size 4, batch_size 3 over the identity
permutation of 10 indices: the flattened plan is the permutation and
there are 5 batches. -/
theorem c2_windowed_batching_witness :
    (batchIndexPlan 4 3 (List.range 10)).flatten = List.range 10 ∧
    (batchIndexPlan 4 3 (List.range 10)).length = 5 := by
  have h := c2_windowed_batching 4 3 (by decide) (by decide) (List.range 10)
  exact ⟨h.1, by rw [h.2.2]; decide⟩

/-- C3 amended: over a dataset whose shard list is a single shard holding
all rows, sequential unshuffled iteration terminates without error and the
concatenated batch payload of every column is the original column in
original order mapped through the code's coercion: float32 conversion on
numeric dtypes (ints and booleans included — booleans are not
reconstructed), identity (raw values, datetimes not stringified)
otherwise.  For multi-shard datasets iteration misreads or fails because
the chunk loader always reads shards[0]. -/
theorem c3_sequential_iteration_roundtrip (ds : CustomStreaming) (f : Frame)
    (hs : ds.shards = [f]) (hwf : f.wf) (hlen : ds.length = f.nrows)
    (hc : 0 < ds.chunk_size) (hb : 0 < ds.batch_size) :
    (iterNoShuffle ds).2 = none ∧
    ∀ k, k < f.cols.length →
      ((iterNoShuffle ds).1.map (fun batch =>
        (batch.getD k ("", BatchCol.rawArray [])).2.payload)).flatten =
        ((f.cols.getD k ("", Dtype.dObj, [])).2.2).map
          (columnCoerce (f.cols.getD k ("", Dtype.dObj, [])).2.1) := by
  have hbound : ∀ i ∈ List.range ds.length, i < f.nrows := by
    intro i hi
    rw [← hlen]
    exact List.mem_range.mp hi
  have hsteps := iterSteps_closed ds f hs hwf hc (List.range ds.length)
    (by simp) hbound
  have hrun : iterNoShuffle ds =
      ((batchIndexPlan ds.chunk_size ds.batch_size (List.range ds.length)).map
        (fun bi => f.cols.map (fun col =>
          (col.1, renderCol col.2.1
            (bi.map (fun i => col.2.2.getD i (Value.vInt 0)))))), none) := by
    rw [iterNoShuffle, iterRun, hsteps, collectYields_map_ok]
  refine ⟨by rw [hrun], ?_⟩
  intro k hk
  have hgd : f.cols.getD k ("", Dtype.dObj, []) = f.cols[k] :=
    List.getD_eq_getElem _ _ hk
  rw [hrun, hgd]
  simp only [List.map_map]
  have hmeq : (batchIndexPlan ds.chunk_size ds.batch_size
        (List.range ds.length)).map
      ((fun batch => (List.getD batch k ("", BatchCol.rawArray [])).2.payload) ∘
        (fun bi => f.cols.map (fun col =>
          (col.1, renderCol col.2.1
            (bi.map (fun i => col.2.2.getD i (Value.vInt 0))))))) =
      (batchIndexPlan ds.chunk_size ds.batch_size
        (List.range ds.length)).map (fun bi =>
          (bi.map (fun i => (f.cols[k]).2.2.getD i (Value.vInt 0))).map
            (columnCoerce (f.cols[k]).2.1)) := by
    apply List.map_congr_left
    intro bi _
    simp only [Function.comp]
    have hkm : k < (f.cols.map (fun col =>
        (col.1, renderCol col.2.1
          (bi.map (fun i => col.2.2.getD i (Value.vInt 0)))))).length := by
      simpa using hk
    rw [List.getD_eq_getElem _ _ hkm, List.getElem_map]
    exact renderCol_payload _ _
  rw [hmeq]
  have h1 : (batchIndexPlan ds.chunk_size ds.batch_size
        (List.range ds.length)).map (fun bi =>
          (bi.map (fun i => (f.cols[k]).2.2.getD i (Value.vInt 0))).map
            (columnCoerce (f.cols[k]).2.1)) =
      ((batchIndexPlan ds.chunk_size ds.batch_size
        (List.range ds.length)).map (fun bi =>
          bi.map (fun i => (f.cols[k]).2.2.getD i (Value.vInt 0)))).map
        (List.map (columnCoerce (f.cols[k]).2.1)) := by
    rw [List.map_map]
    rfl
  rw [h1, ← List.map_flatten, ← List.map_flatten,
    batchIndexPlan_flatten _ _ hc hb]
  congr 1
  have hvlen : (f.cols[k]).2.2.length = f.nrows := hwf _ (List.getElem_mem hk)
  rw [hlen, ← hvlen]
  exact map_getD_range _ _

/-- Witness for C3 on the ten-row single-shard reader: sequential
iteration reproduces the int column in original order, coerced to
floats. -/
theorem c3_sequential_iteration_roundtrip_witness :
    (iterNoShuffle ds10c).2 = none ∧
    ((iterNoShuffle ds10c).1.map (fun batch =>
      (batch.getD 0 ("", BatchCol.rawArray [])).2.payload)).flatten =
      [Value.vFloat 0, Value.vFloat 1, Value.vFloat 2, Value.vFloat 3,
       Value.vFloat 4, Value.vFloat 5, Value.vFloat 6, Value.vFloat 7,
       Value.vFloat 8, Value.vFloat 9] := by
  have h := c3_sequential_iteration_roundtrip ds10c df10 rfl df10_wf rfl
    (by decide) (by decide)
  refine ⟨h.1, ?_⟩
  have h2 := h.2 0 (by decide)
  rw [h2]
  rfl

/-- C3 counterexample: converting the two-row boolean table and iterating
sequentially without shuffle yields a float32 tensor holding 1.0 and 0.0,
not the original boolean values — booleans are not reconstructed (and the
iteration coerces every numeric column to float32). -/
theorem c3_bool_roundtrip_counterexample :
    (iterNoShuffle dsB).2 = none ∧
    (iterNoShuffle dsB).1 =
      [[("flag", BatchCol.floatTensor [Value.vFloat 1, Value.vFloat 0])]] ∧
    ((iterNoShuffle dsB).1.map (fun batch =>
      (batch.getD 0 ("", BatchCol.rawArray [])).2.payload)).flatten ≠
      (dfB.cols.getD 0 ("", Dtype.dObj, [])).2.2 := by
  exact ⟨rfl, rfl, by decide⟩

/-- C10: every batch column yielded by any iteration pass is the rendering
of a column of the first shard's frame: when the stored dtype is numeric
(int64, float, or 0/1-persisted booleans) the column is returned as a
float32 tensor of the coerced selection, and otherwise as the raw value
array. -/
theorem c10_numeric_float32 (ds : CustomStreaming) (perm : List Nat)
    (batch : List (String × BatchCol)) (hbatch : batch ∈ (iterRun ds perm).1)
    (nm : String) (bc : BatchCol) (hp : (nm, bc) ∈ batch) :
    ∃ f0 dt vs sel, ds.shards.head? = some f0 ∧ (nm, dt, vs) ∈ f0.cols ∧
      (isNumericDtype dt = true →
        bc = BatchCol.floatTensor (sel.map torchFloat32)) ∧
      (isNumericDtype dt = false → bc = BatchCol.rawArray sel) := by
  obtain ⟨f0, bi, hh, hbb⟩ := iterRun_mem_ok ds perm batch hbatch
  obtain ⟨dt, vs, sel, hmem, _, hrender⟩ :=
    buildBatchCols_mem bi f0.cols batch hbb (nm, bc) hp
  refine ⟨f0, dt, vs, sel, hh, hmem, ?_, ?_⟩
  · intro hnum
    rw [show bc = renderCol dt sel from hrender]
    simp [renderCol, hnum]
  · intro hnum
    rw [show bc = renderCol dt sel from hrender]
    simp [renderCol, hnum]

/-- Witness for C10 on the boolean dataset: the yielded column for the
0/1-persisted boolean column is a float32 tensor. -/
theorem c10_numeric_float32_witness :
    ([("flag", BatchCol.floatTensor [Value.vFloat 1, Value.vFloat 0])] ∈
      (iterRun dsB (List.range 2)).1) ∧
    (∃ f0 dt vs sel, dsB.shards.head? = some f0 ∧ ("flag", dt, vs) ∈ f0.cols ∧
      (isNumericDtype dt = true →
        BatchCol.floatTensor [Value.vFloat 1, Value.vFloat 0] =
          BatchCol.floatTensor (sel.map torchFloat32)) ∧
      (isNumericDtype dt = false →
        BatchCol.floatTensor [Value.vFloat 1, Value.vFloat 0] =
          BatchCol.rawArray sel)) :=
  ⟨by decide,
   c10_numeric_float32 dsB (List.range 2)
     [("flag", BatchCol.floatTensor [Value.vFloat 1, Value.vFloat 0])]
     (by decide) "flag"
     (BatchCol.floatTensor [Value.vFloat 1, Value.vFloat 0]) (by decide)⟩

/-! Seeded shuffling, embedded from __init__ lines 48 and 69
(self.rng = random.Random(self.seed)) and __iter__ lines 150-155
(indices = list(range(self.length)); if self.shuffle:
self.rng.shuffle(indices)).  The generator is CPython's Mersenne Twister
(MT19937) exactly as implemented in _randommodule.c and random.py: int
seeding via init_by_array over the 32-bit little-endian words of the seed,
getrandbits(k) as the top k bits of genrand_uint32, _randbelow by
rejection sampling, and shuffle as the reverse Fisher-Yates loop
for i in reversed(range(1, len(x))): j = _randbelow(i+1).  The 624-word
state array mt is represented as one natural number in base 2^32 whose
digit i is mt[i]; the word cursors (i, and j of the key loop) are packed
above the array in base 1024, so every loop step is plain arithmetic.
The long seeding and refresh loops are evaluated through checkpoint
literals of at most 104 steps each; the checkpoint values of seed 42 were
cross-checked word for word against the getstate() array of CPython's
random.Random(42). -/

set_option exponentiation.threshold 1000

set_option maxRecDepth 100000

/-- Truncation to an unsigned 32-bit word (C unsigned long overflow). -/
def u32 (x : Nat) : Nat := x % 4294967296

/-- Word base 2^32 of the packed state array. -/
def mtW : Nat := 4294967296

/-- Capacity of the 624-word packed state array. -/
def mtCap : Nat := mtW ^ 624

/-- Read word i of the packed state array. -/
def mtGet (mt i : Nat) : Nat := mt / mtW ^ i % mtW

/-- Write word i of the packed state array. -/
def mtSet (mt i v : Nat) : Nat := mt - mtGet mt i * mtW ^ i + v * mtW ^ i

/-- Apply f with loop indices start, start+1, ..., start+n-1 in order: a C
for loop over that index range, recursing on the iteration count n. -/
def iterFor (f : α → Nat → α) (st : α) (start : Nat) : Nat → α
  | 0 => st
  | n + 1 => f (iterFor f st start n) (start + n)

theorem iterFor_add (f : α → Nat → α) (st : α) (s n m : Nat) :
    iterFor f st s (n + m) = iterFor f (iterFor f st s n) (s + n) m := by
  induction m with
  | zero => rfl
  | succ m ih =>
    show iterFor f st s ((n + m) + 1) = _
    simp only [iterFor]
    rw [ih]
    congr 1
    omega

/-- Loop body of init_genrand at loop index k, filling word i = k + 1:
mt[i] = 1812433253 * (mt[i-1] xor (mt[i-1] >> 30)) + i mod 2^32. -/
def mtInitStep (mt k : Nat) : Nat :=
  let i := k + 1
  let prev := mtGet mt (i - 1)
  mtSet mt i (u32 (1812433253 * (prev ^^^ (prev >>> 30)) + i))

/-- init_genrand of MT19937: mt[0] = s, then 623 filling steps. -/
def initGenrand (s : Nat) : Nat := iterFor mtInitStep (u32 s) 0 623

/-- One step of the first init_by_array mixing loop (multiplier 1664525,
key material added), with the cursor wrap mt[0] = mt[623], i = 1 and the
key index wrap; state packed as mt + mtCap * (i + 1024 * j). -/
def ibaStep1 (key : List Nat) (st : Nat) (_ : Nat) : Nat :=
  let mt := st % mtCap
  let i := st / mtCap % 1024
  let j := st / mtCap / 1024
  let prev := mtGet mt (i - 1)
  let v := u32 (((mtGet mt i) ^^^ (u32 ((prev ^^^ (prev >>> 30)) * 1664525)))
    + (key.getD j 0) + j)
  let mt1 := mtSet mt i v
  let i1 := i + 1
  let j1 := j + 1
  let mt2 := if i1 >= 624 then mtSet mt1 0 (mtGet mt1 623) else mt1
  let i2 := if i1 >= 624 then 1 else i1
  let j2 := if j1 >= key.length then 0 else j1
  mt2 + mtCap * (i2 + 1024 * j2)

/-- One step of the second init_by_array mixing loop (multiplier
1566083941, loop counter subtracted mod 2^32); state packed as
mt + mtCap * i. -/
def ibaStep2 (st : Nat) (_ : Nat) : Nat :=
  let mt := st % mtCap
  let i := st / mtCap % 1024
  let prev := mtGet mt (i - 1)
  let v := u32 (((mtGet mt i) ^^^ (u32 ((prev ^^^ (prev >>> 30)) * 1566083941)))
    + 4294967296 - i)
  let mt1 := mtSet mt i v
  let i1 := i + 1
  let mt2 := if i1 >= 624 then mtSet mt1 0 (mtGet mt1 623) else mt1
  let i2 := if i1 >= 624 then 1 else i1
  mt2 + mtCap * i2

/-- First init_by_array loop: max(624, key length) steps from
init_genrand(19650218) with cursors i = 1, j = 0. -/
def ibaStage1 (key : List Nat) : Nat :=
  iterFor (ibaStep1 key) (initGenrand 19650218 + mtCap * 1) 0 (max 624 key.length)

/-- Second init_by_array loop: 623 steps continuing at the cursor left by
the first loop (the key cursor j is dropped). -/
def ibaStage2 (key : List Nat) : Nat :=
  iterFor ibaStep2 (ibaStage1 key % mtCap + mtCap * (ibaStage1 key / mtCap % 1024)) 0 623

/-- init_by_array of MT19937: both mixing loops, then mt[0] = 0x80000000. -/
def initByArray (key : List Nat) : Nat :=
  mtSet (ibaStage2 key % mtCap) 0 2147483648

/-- Generator state: packed word array plus next-word index. -/
structure MTState where
  mt : Nat
  index : Nat
deriving DecidableEq, Repr

def natToKeyAux : Nat → Nat → List Nat
  | 0, _ => []
  | fuel + 1, n =>
    if n = 0 then [] else (n % 4294967296) :: natToKeyAux fuel (n / 4294967296)

/-- Little-endian 32-bit words of a seed integer (CPython random_seed);
the zero seed keys as [0]. -/
def natToKey (n : Nat) : List Nat :=
  if n = 0 then [0] else natToKeyAux n n

/-- State of random.Random(seed) right after construction: mixed array,
index 624 (the first draw forces a refresh). -/
def pySeedState (seed : Nat) : MTState :=
  { mt := initByArray (natToKey seed), index := 624 }

/-- One step of the MT19937 state refresh at word kk (the three C loops
collapse to this single sequential update, reading already-refreshed words
exactly where the C code does). -/
def twistOnce (mt kk : Nat) : Nat :=
  let y := ((mtGet mt kk) &&& 2147483648) |||
    ((mtGet mt ((kk + 1) % 624)) &&& 2147483647)
  let v := (mtGet mt ((kk + 397) % 624)) ^^^ (y >>> 1) ^^^
    (if y % 2 = 1 then 2567483615 else 0)
  mtSet mt kk v

/-- Full MT19937 state refresh. -/
def twist (mt : Nat) : Nat := iterFor twistOnce mt 0 624

/-- MT19937 tempering of one raw state word. -/
def temper (y0 : Nat) : Nat :=
  let y1 := y0 ^^^ (y0 >>> 11)
  let y2 := y1 ^^^ ((y1 <<< 7) &&& 2636928640)
  let y3 := y2 ^^^ ((y2 <<< 15) &&& 4022730752)
  y3 ^^^ (y3 >>> 18)

/-- genrand_uint32: refresh when the index is exhausted, then temper the
next word. -/
def genrandUint32 (st : MTState) : Nat × MTState :=
  let st1 := if st.index >= 624 then MTState.mk (twist st.mt) 0 else st
  (temper (mtGet st1.mt st1.index), MTState.mk st1.mt (st1.index + 1))

/-- getrandbits(k) for 0 < k <= 32: the top k bits of one draw. -/
def getrandbits (k : Nat) (st : MTState) : Nat × MTState :=
  let r := genrandUint32 st
  (r.1 >>> (32 - k), r.2)

/-- Rejection loop of Random._randbelow_with_getrandbits, with explicit
fuel standing in for the unbounded (probabilistically terminating) while
loop; the fuel is never exhausted on the concrete runs below. -/
def randbelowAux (n k : Nat) : Nat → MTState → Nat × MTState
  | 0, st => (0, st)
  | fuel + 1, st =>
    let r := getrandbits k st
    if r.1 < n then r else randbelowAux n k fuel r.2

def bitLengthAux : Nat → Nat → Nat
  | 0, _ => 0
  | fuel + 1, n => if n = 0 then 0 else bitLengthAux fuel (n / 2) + 1

/-- int.bit_length of python. -/
def bitLength (n : Nat) : Nat := bitLengthAux n n

/-- Random._randbelow_with_getrandbits: a zero argument returns 0 without
drawing, otherwise draw bit_length(n) bits until the value is below n. -/
def randbelow (n : Nat) (st : MTState) : Nat × MTState :=
  if n = 0 then (0, st) else randbelowAux n (bitLength n) 1000 st

/-- Body of the random.shuffle loop at index i:
j = _randbelow(i + 1); swap x[i] and x[j]. -/
def pyShuffleStep (acc : List Nat × MTState) (i : Nat) : List Nat × MTState :=
  let xs := acc.1
  let st0 := acc.2
  let r := randbelow (i + 1) st0
  let j := r.1
  ((xs.set i (xs.getD j 0)).set j (xs.getD i 0), r.2)

/-- random.shuffle: for i in reversed(range(1, len(x))), one
pyShuffleStep per index. -/
def pyShuffle (st : MTState) (x : List Nat) : List Nat × MTState :=
  ((List.range' 1 (x.length - 1)).reverse).foldl pyShuffleStep (x, st)

/-- Checkpoint after 104 steps of init_genrand(19650218). -/
def mtLitG1 : Nat := 701725449211207726158096916584735902912989605251167644598862275329708462564731724748554669698581987718674154142279362321446313586179307611740010835940843618791211537721227526226594199813127502766071014117003307712795543387654368769926637329444993158105943475548858443499753807287220367011524712272915324772099463608461414867689382378446089733436906340869539511026662061169779559716056211726449263953367344020292863204993288248861729097095041306488426284286950281019585631742370734078519432104119118759492284967018960025688301879121496329413885197924092961041085047432335250270984922356289151983024349923844543601527647271873057225139772723817010289480391383076872254356901609674924867260122502317181167212800042194586727034946100015905279217544594293014286105985680141463962334433206984744102946664021686046972569770603608226236501177792483821786226715534529236370707901539927381990551181625399803596071066883507388844365888474324736751059752352621041500056121290828333007743051565533929455760442601782266025642

/-- Checkpoint after 208 steps of init_genrand(19650218). -/
def mtLitG2 : Nat := 1317599805016112088137257377608593996510137573610372273504028274368515873229427363521368266684393655196589929489625647421953515026132828943540638127735935584679165203928772039084895248823551433189829190199558143535906962946105940259674869852508262768264585160689365888455076854664671959704671245965806514558249012682370827841175900124500912645463742182731673748828135116806265366612830604457413719412268173191597421227469165112799825193551972937033224185627554639886558013329826192579210768941139401189949042267702912811673278488368622870104831953819397658175230305258226526567006019762045074660703176779825136894828625672627793048196802336543766998192802431124420850872379722622053567152775603482285423706445299567963204364482309838893539521527472933272741233575069826295922059444219272026999377060622785623615409077739158417438755728095299128766351180329394404114474239338234779413952495043134977437107917780929881104443372989617983919966346519721415321328829091740375037574373886296500592701919885227600535344453721679435923057501464349446308499551301990359820109996415135332422913632401879888817850556306508338213123019746032143136461387162778439649236728826315455256047790040457657098939833137970078984803357783783896206978240251151161632415186505134037489025474570336543566330552702203037056065030748922131381509673860744059378078086942185000779837749097543267887007958005422739803537952596256287028255060982990104931047791499602108794963466734429620487275415211507269424972431492298844001360445056255875053520454680228209348810688793612925413972237473205918859253611864248846055931214934565417740671774459886962077957503944907807180249536885273428269119237168718490510852803675106998207202680082262099308829947352762717268286264035411327555876071616055407287577871607712738342097953063610940136922988699360200625375954098590006505970366671259315459977987303431309654248741473840380810197310098409318748590201637051911426672306553733799107393336740657849553749538577190232778226436712290545119148723774674602

/-- Checkpoint after 312 steps of init_genrand(19650218). -/
def mtLitG3 : Nat := 43451447770933355967655871035138949693569261124825171477259371368242040963630315041640600927062429357342263245072047913504023898976222663001529237181465201772843534221011158941461788237762698589261273801769281502502593118350248735333713311198202497828243017791061617341960439265842889406544782867384102031255415178900271700980034168162099017956864365589687933957192069187376259297852575715811388574171215432492658087185762998133264937618221271755098965785706070432997411298302669325798217537933293030347163471750845422681163572671323163202114877642119962417042471289236322169711500740026105874938956762201603260389777781630279713951086029849345573805932629935728933211559110808097128740387659360937505283811305307347869883257125318992063172672017615398536223451585974537588286022205134009526045686872405388374260265035160946462461317145380067221477742827625033291004988186600847047377754436956112252765415547548408556447351514012263030872155378162443767249075800305742610089963329250678542759130875153917902877000807677462921581614667852151540757676825924685240218932446899250696312449506135479343622804623859202371994529890468382846930685411934794688331648287209458802119989744293689297836832290230577568486221523698209302874511121874762150532638410906132104470889309461291278796138128439899576644934370820510807927041579775331321262853219456273416624914629492046704521098886302371997733497169681590999013636545589526730424048338678309150088059101227216260252295312930593924952910598006343530852486415054899957422866806481309347647590361328438947697292746295807809428922793414666431031814032861628969263850718323415981880030858167528846350251046504303358726259363323070269072187751201049724611599535900338130652159317711611833200261613695454102202814578620205541009402153224278689166045349627866295907532129503895413832810001764573153936452102111555030652334240483122102594841884380674317392563630683854541905006240664521198153740937166191474997625752436218240484367957684741526689649510263592542862349097987484326349923217637403156985861455776990955562277159694815042715216724617281559276212445232985599228436390356449552586460255915535860776483174844518320695425225063695481080178103231631950275973599455300666837807626044694234147242514012101510230019527491077792176108322681805294472844587867838741311282738328647507874489747241806324255865685263010191263492795301111565976750841965370576184466410593308712339528181219905472475204122126760987352893962695606471420148579799216517439021817837338880498212480863841635080417758859006076745928135992556866011781792223422737565911596816399712199640792654318509917637608884290031624551158142734411201386157483991292013621678138939288482992546376894032653839238558962841745275990259484118213751656221934669102001560497906162914383442900645772006269349662366806111990602419656871248887642639965754962717384557626116538075248782173671677328111889848696227829607958952219328265125408926725048538271658360205449107884774215457740765053921576049468809462583970011502335658

/-- Checkpoint after 416 steps of init_genrand(19650218). -/
def mtLitG4 : Nat := 804132580142454312959598788528401781917072108696100871537062538331154274284941319127259320848788594716631196511416154612618597823463979584464938097367032287312279182972952712025263837936847043852655799925279641768469685843774116450276918255954034538137240408822192691783452756641134263561087209445210411046319559490086738329210322385283425249918768319913358870575537259832034208318498486609881379000420784520622433985697153287185917436810151379601651131113641348359749376612065029087463710868204039538022254711080807675143196497318678150405278531927273934685103627258679414376631590172676972446318419158674241555157749563031968839258594948331045209420000948157497808729918586505714863542761314277666265731128176216312199579864493153314688241218914060997279399314285563305430388172938021098199531348862437933319757773274328501929178000614347891494805387578284069198702814579143636348574794515880829004196732283179919368798310286566800751070501281371294691324227807966017587901439679957786199317957909313938646971952897753446437199221694045376935742202952784312200222775588728647410226567432300784939850183266075357061328042382019876997179860375538655729220029358205838342757730060725497609140742025457324205324092584912248157382555734334671476371881641846800476717449669514230054670557566171833968703117884888790687732001983460271754710521033864597246574608241986373644178637348064332063472508772257576128787472375726227370914041679736095318033443235305880949984242267052327022050970192731748052101152986547779374340677991598922759071614288041685732201051115927159442007070752925991023963438093508118105144316362322060371332416460457052968277363309066551243535706946035195875262445436455840613355818054742731166888358580297779427040675336090415747072607079883536339173257398273828487730049664621502542990580104289240166341527118599020877563399712298321880055158275858642837119690150287393956715939065461749483535909303403396554503689534427047920467577563473925463214099952375824985941950793310299123786874489439752849295285129695483684900990830138794599043486621857460834437418179982999415717264312264218648482469365552324002569400657565032962417381939399651951811325672410143944213855707097476052490059160017955748443285082461280429278747436255217575125397967380534922051984556452913856301984632541721233471533404315228955799525750146003797323057822718296954429331264388804575103055383928576315088341225624069537781791522802773749594913679608476801959998678302665740548130708647715250285054200389492964706764081655800097335923850828772529821780974651989414942286628639147554811918355602302238966014764814955770955125201714634571395989736259543988521989828027732468632295463336455362640876195415494531428517145535004166116752561365090598719620319643872671986082830384199559800780090315650456635643576420366760827930309359768892308170869685835056754246431619245401967850443160826079531772781982706093450079770021029601557775385460171047747246790504820373648070492103713814272886204056679589492887348108029198792657412062535710107964385661615786858031080318973934238693345345437306475574437852461492017715929726616488086088009916785859889292748107241279383476125137296969131585154359658550243437207942920410724068346180228287958495372186008553683244314067480544491072753152991570178792711444124731645158569712040367291513488413637956219047944487331695441173076632935414711992036233314733242079808990518364013710072058076959337519982635610458404952541380224058060661668260665296664846886746196238778196388487951190328407272451267520130532551110415067499600552654001408230988131267722897090507694917222547099044613562826113176685723161394246326046191822147608548617394734262788899192399944094664766872301832155471360237171981218601587504672396625587892742343977631081638222604744479773233782535052165048028636824033698482890892285331903163770477429180125468655059586150937262744053574187755854863900577932799196673000412996010203181691207866362075410804507426242675965105854765434263203825090003831493587506567253198624426

/-- Checkpoint after 520 steps of init_genrand(19650218). -/
def mtLitG5 : Nat := 34203238342482546560636671862170742373109299378181625160927735552102989169657278013894574343798191184758035260768778302392411848839134314561561481924335332340948360384180116890966303851758807111110134122320788281957031767362549049280627345523537409514342548815725961040955725742239063874296394512964081964675101537555732965443328066265405817548158054530774515925291001791250746174135571792499507086364898961019419426687619179957269768904815662165498595817177651926760732063625119738425135252983764808222159682403906463733792344762563255052846820420567122421438900929090148716243324475958821946029777307668971296562188109035970419560261875153970537937970631449404484040776947282113114844294844750890335349251787247909204777368946660180932635970438313519993983780582776265384945467354371363944353228626451382027303150623628905502244118164920031050621059218318661018175177331185001531571284913352265772345406507211743948752885001360535879218168703459016397892843949337529482849898121035453406735296874528942035103356231240462671332086092930711041097887807270836012898723308373246936954070014864123785638178529060799295198647973337635084181809756983968929651371709253897431635997191503698254502435062179775490345584295130666080407172732404242898319078584612075911057747811414292960997681672399694773328574687813798890701128669498969636942460829278829972152118699254604909355853740359642291909601010305717007193397893178549460688920873742202263882280657070732984611232901769193462452178244806108487964465621174382710300422739481833504030528217245778572743229659662764640729864753180525544094898387547397901922891906316284519799206737611730894723130457519621134207693259836210528530107848224815911120158237581333245852721801800375561710118407636645326781432686700924075060991281188971119948872344497763019772493378353868960521022294233379668570336395091472336146876642385822888991616169139910915867144360464318610506405050600042110570163969020807172057864176377762747489630347915057357273392665419108064204283199049743271650587176800459231051310977253011794790944503147543055159279170598284923334300172461160745754805798724675853054237273356473494441866230488560517957926089776670888167165181433044258417661852559161719663066147491082528689524484960613227518575524321705974385237754853993222056391682551230855193744391860172858747825250940689030839793706623533690431917823497581667021555169907183269632346212473306274078793078886361198977295235849720516957122865105523470202161194208851851374848768237365334873073215437276791759531367923024168807529761396449001633672028304237484562365135280443499032202666308911004515230032752651466403082416572424759842446302134946051866075757610337673551169285687384241885172371835425074542934844655971671863829671571888321652320179603452007656967569738575059681205992614994464517142839560795383010451347322966612175287075274224454028297266010987553521144519933368032227601341811790926773524842359079336885428214330131947136048397963050496659188166261960355745537260442362957540833536055446540443642993697980863450985944953553755582881862987554139692911470686247029744987758881160456962711182701039476406563337139655495907932477770887872683687100984717878345082672211875260531369699654073591610041711400573510589280492698696692010826230198007858556925356774750786824020768278853612833093400791946386404013420618003790547376284492725105330103776780950239161471635424383333412641476837551884971623699708772320606442662063705012723739353537705992522690086628080557476643309350745552262292507883918388532904825684150312385275504095436322018874448136615931114345648129894122882437144735298800176127534601855220762739545250804951344535713986268825070487173279746714188929162503657759598618602380012283453062760775648568521884296088262103091730647097704504398492737396316294453129001659111892360426498842865927311237944115111132717648943620238532807903340727728017734105775720461215333938244127070807622562105024401406981768715387170922897581712706830776905205861654266311329292100206753832095078714869411282098925835170124371192530077456259934742473249352695796872614386841054562429378130338833578793812282425106924213435901983174179285083243367876527832533101612454910376141776988496107475876498592089294680245527095858880745934601914870368503245334963469178758187216066730982191523279226025862751592059712746076973280153184370917237602297434106805697929570500075957533403205555696274487081501761707191832980486126059539521651664096779388436382380473172657514000779743050271570521359848420375628761898682835515453879295187795918655140202682260114577329308264606859670366541322338379317659958535139223047440432849284318913450111540156590389051145065872667786597228814832907848249051744919917691660705217054357015180664938978171746727228733331196730639864679623909466705745586151786906831370933965127063174026761518688699803839785443521206014844135494442063286162020501110876431540481887204530817022225024048293638935515796150080756263649860185592365061596169315575028344988316557559785440663210

/-- Checkpoint after 104 steps of the first init_by_array mixing loop for seed 42. -/
def mtLitA1 : Nat := 9793354485298541127162057932974660401393163674088207632947729943058419368379583593009358829640194673942292993701419978405422542307446627498618234636699745656815079450022254045567047386228134509670001224577390207902432811641936009728133289806641602778044001291731148873892560523869179559178555543256731916782469680384437534393433703587021461297811913525868618904414356269988609412628838660673812699226368340001344595098214994264992583876618644098681762467023330375865241280270146822914843804998097482506784766793640735145414115586668947235092762877487321978181833868498927028269939257604220024603304816793748301339249661609022701709269632959107306057606003462708429957692197632401081140420846054203630092027187745958734383687866404345822241563128967368966398579976887515448737048604655136088771265625083421280041985066100011517264720874562884457651083219274286512988811284166176753935633876861552486618913943045024848293799809319077958491616174735106835963025510639429974123397462212589279067864205387649488662592748320428983425383677149698386189253791145819267066305056024725032583266546904735267715594391483666817749453768954754725672376536432774134967840041361792584531942285991603366129435033520000683334158875449438951113725543717676669166070714967103685033863274609970022869471593076379124904738700926377603108274631853823357815306653592585102304467879873953327408671837058996367543784766310490188897726012340478377207558271659781491067559407639012014633651649879524881697105911825829845917062892068364916386643132028222777675083432309337074604383988676533065368644388567134741724607923701633545040087219082297499702014069808298357598875904200656688823795226690855594416852846623350479282843520423635295862372266138253440385061429395182687860993379274727176165157109899564281867206746577340136657525269709788816706220998340987138350199627638550708060744890869326077248560483960066382784961962167420300284152749560318453299673477600587608536474012507124450121743057347555838514506144755917968847688787622108083906749718725909592927374019885423121800431907919578039087007604733775618921637721714070618081750206980461791647001497551156397725370994952797683388254192983372689886278647424596936646523303075934647594086997217612292576650626226372799456486076122894763570402935592640875357683730386680899126494282936926717980602133232295690511459189472319192325678060750701758807792617599627033095596682157973969224946236989208313179150190589267596888134762265123834163309679134377104382014332619951881201309318105261076493429868061991700478416256753911468170178183452972964735647467405723601903073603408776732152834536179304719138606283506689902382711373690863826215689200185421336823732745687488878883334823799261381705661443691750223219566252086039257918794189370332829151871246410788871719407675501359062972234806340435220231250506514209088714664646964043758082158888005258695932513920716862147785068683778412470551715306489325247694627565908325099425904147908883204882215727472507299868294761210316189857721714521814244430981313386875532827814920256349608331468364224461674612960148487782629060887031374665171183146269426239296387165863974055011416670660139170803608291307165874063736531776335785516837700489287767216126479731017563770297948495706033658410474707409436057518615361193409031723913806995343074056633359323338941928459969218373000500090147097283209448777864067199938800489800987701589557151088547270235582693634611589929266556786080597574110022133508871190163034192302554675413381807428490900820798997081414414019962394856705118157135538115567454980763026465716422776799499963777641491441534407778074852173792456247864113514243792869319429447769663217741420255191652569503151673338548210699802560078684272530803907791612380552849073236796195086552854856443146814574850193900529306244047277588958092712108265611085613383016058307675082602600431784809345254381571724702929116897899731231614476734378260084848377141312923852134551090877738978928264478001316803276863087720460305051114374925790186499023291486788429175815867065104391605432502606008051644885876438225644256787983444158814610407520835692218807655320429793463603786677732521433232488735438378496331735934107452223920070040672270537499653258322821289461693204364893005534268513424033977549602202257007382451658688351969529836771807963648230170751322270549904945508244090973636077058481324276631168229487297614895182682693189355240995773255355595927378805533930213394414561062515596718162013676438135665078488821452169910518865558752678837630562134680192608139888010477760070484238999736357626876638786592795416443618566826730092559806019983714360165388306329905094445531533824095945605386491979241378374565148813362756594387539766901359884274128283573995177447444215212511499150574068279747960069013306857226601138557379304489829151550153955228347014492803454899928346330228976193203818789783919106268799435762398135421993055527855215006302686091991923624387046207188160622865085164394529448769529456831978062804353198283754757322327172280235961681677136700979988951141455633579854975820396907749202797602916425682810525930236927697733475931676284354231086794941307597448001926729487961720328268591437603476735629687868723841028944205019055871359526367888954033482909140769862255196737754918581513743875108145046602162088190632963272204622531053383314152898153287943056450650100523598195230063956034002835592895172770356425820324293826726082252101006814107235689459408830166794962305379194603923860330117612380205985668522898027011347039463788070068843320473855258711821219543079058560052596083119952688465306990632628561495704930108790034019453201263354013208720898687925837158661682938507243710045643413866560079186843411542289564151353094084754951281622113473342358266065038731470894701468635983706361466785329213976992672052438554235940993691729261372651950940998231815231987957617180010443168444835840921061265292615582581515755115907738321065768143294344403490278545972029947218109035748877803345817054520093398076095620639150036650

/-- Checkpoint after 208 steps of the first init_by_array mixing loop for seed 42. -/
def mtLitA2 : Nat := 19431350839325925218443575095984160885964405661287085191669806741564690961045216298315598491865893244925542678101464108821652291219898693568241308414639406760592291860348584925126314712877783097845086585236030429498270800561024808445498395317243538082004256377525581110212296875573701148782239192265224937378972950760756589421142822255605793797148960407274764664672087853128320757376799583474566805237286040768051109132340282456661223355275379103118482364541367521363673494360337918467643372400972622907416136758231802997039466858904751510490274119378674684830503523136602681111541749284916515774567087006518724717109862450019158003505319718321688505555996214654484516815945123214926354023176130652905516920298363124959651686698706244634804792076420684929943782044029219127124472670481875063442750360697978816356800554624768186811306833134399893234003216342212584526135936690200247903359637959241604093672569932449423502038500678790928000348640995440005549817040122105303236242881652989324976401919330077389331836754971049057867364335851323014415993117971801032604213275078774766103908433426781075937771518340376011470998759329137606494578876863889675577339809406432266387131011956042233306574875620716769668492931727133838660279173351744252349092532537604262499757598745206633278761937207731289332152465293242155300164530015689645871669179782273599697094972541886063608133872652566128116444010793883280006599994800658842320283989540202431623473828955460816346710461376714031531538969304496524718506484667768476142683789595532175137684089092209714751398374949765198054894734963408128926560864038246210913096918774265029518298931434547923788107067067552253761280927311008254801423185436171382175263533031555841153208339523843116474627154708197208410199686525396924240083733843473617148311205945936105556573197240057262921902314406985757958785916738300596917012414771173113472172722093647541336085042777479872999623402649672301555189999421170203853798912994533633090829574339392043002267776889445182111012139184240390523538120100390553558966141957730471181692530409745989543894965411264524499179861365678303639761114213591895840844561027886586011965954460224510160091078425611273282187881693245173441535365839766318204868783387903165887666970220882313408116789011100701212262237441587524528052709785463131029484268650446288604556457859845481587665121031443773332630457356256032157832089363320409656723620970387246124076395410784691011447674929365405687328119771320639254291182826963572550076922114111658385788367460884044418440505800985259122636111914603489378402641093486153303863449352597464139409511167482509323752585896640847761833323799710457370560612317009771893148368295023043274183761094244462811774447100552163693721450690264726533551225508636722799249521877646000248035505874436173649241259585686382910392430283099713607099795773929251720119975442565374221572947300766456661642919499423693501252884942674165587794200391567760567206733207199368251051926689756080253789274173939610621544187114027399143820335098933408654490604194856719617564212036558778819070328640213780687070700679274093095784541155841455757954601155475900316897741698633534363784826422352796962860106113649176167183754987374565575651857173671389794382050999118017872853877596078000559447226510869023922386419239935690604265367120323575085248202675886533312181904197954885016427296376788044230462139755484852217465503199234533480146275606928499251575872726851266945317525228475252342293504348967781175488066299979687744593961676740400910833960567718700733688442299728652358046917132400638247275584087007306275516319353818889124426421032385225458122435182325464771856803915474122732461146890412210155792925448794388803758940810210474455066017903977846234485487981147104579090607251591417552378860087454328170125965525252094643042979747083966399415386978097214090778562712082013892677414977181874514791744104414959783785826133824232992408786038667604583352194029590050122510012169716982394267854352240748441965026520657257824019769513576496383899531397867959547976126441059620357337081441218472394658956450833816411247499983244255139950125160186531325958247478450887962269836004752016623591450889353863784187282497035905326489008229782574376445887210267827783343176906604369418661446787305573627920928259312682565946905131401936569868440268532166819446720632442719994599259055186710373898728973237070907441222278604482490914170772533152124832781577427817341148309129125205814445679209764285491911315709947854481236368996968841637774981251595158861257200258889220514425577030970674218143050233888340836169306911932598717214738245192772592938982208511809413029991324885143504318107047792804681287887788465197368105206093392581222532946387752806662328399654939837567947018464830473090202059102191348634763671651432603947808353901236552324094623785597320538997932673380752106035253167928899843228840321995556823138964757008433413973544401370118492803647170428790515926487887489878445309331046872409818938301129843076857804336190151281286782192152496040631858934976682927660685842490443246501539654035948983490641049437297920557803539655475554668463806792210819662506980295673789926057322836769112627693160505320155783654302019002228383124390281854788119932314124464321652210335560068629885190787743365757225100328833532675818578420869318491642381815200780468409639430509750253605318340827271524206418693246365030706299247243067750307494911744481368873827098132564739764071769345919240140313601716126577122083770348089444003969401766445249882255850650063000071794517251599279742073744023197297415639432896632193178803097418477201156628965639871500058681830094599617781875007258367613710296077796894179516489977112786133524596802915225532627391128997886915813709839872743468732881695299449043841265748092789731742376308613077540327485246928525367523508300018367880563731603220561705375373763446429063431392487175010908621639643524611749409835720800274724441738999787950500147744705138735873541130199433602094932599128515346406595180777327683163818

/-- Checkpoint after 312 steps of the first init_by_array mixing loop for seed 42. -/
def mtLitA3 : Nat := 29069347193353309309725092258993661370535647648485962750391883540070962553710849003621838154091591815908792362501508239237882040132350759637864382192579067864369504270674915804685582039527431686020171945894670651094108789480113607162863500827845473385964511463320013346532033227278222738385922841273717957975476221137075644448851940924190126296486007288680910424929819436268032102124760506275320911248203741534757623166465570648329862833932114107555202262059404666862105708450529014020442939803847763308047506722822870848664818131140555785887785361270027391479173177774278333953144240965613006945829357219289148094970063291015614297741006477536070953505988966600539075939692614028771567625506207102180941813408980291184919685531008143447368021023874000893488984111170922805511896736308614038114235096312536352671616043149524856357892791705915328816923213410138656063460589214223741871085399056930721568431196819873998710277192038503897509081107255773175136608569604780632349088301093389370884939633272505290001080761621669132309344994552947642642732444797782798142121494132824499624550319948826884159948645197085205192543749703520487316781217295005216186839577451071948242319737920481100483714717721432856002826988004828726206832802985811835532114350108104839965651922880443243688052281339083453759566229660106707492054428177555933928031705971962097089722065209818799807595908246135888689103255277276371115473977260839307433009707420623372179388250271909618059769272873903181365972026783163203519950077267172035898724447162841572600284745875082354898412761222997330741145081359681516128513804374858876786106618466232559334583793060797489977338229934447818698766627931160915185993524248992285067683545639476386444044412909432792564192880021211728959405993776066672315010357787382952429415665314532074455621124770325709137583630472984377567372205838050485773279938673020149695784960227228699887208123387539445715094055739026149810706521241752799171123813481942816059916091331228247490029409022972395374335490746372697140326521474871514190558264030037820562953152899913940000782326088753430076722001017285989197772021446722000034687624504616774298560913967651336931927963867849856678097115961893410236547428603597988815650569558194039198683314215391827359747501899306638854121539290534173698421689184245362932474254363965859228510782487395272663871052590568354339582853961810305507871561127013786217850559782800523023206553832361068843745159269463214486521477277517444345272686519550040718139511608271435570267416816507012343451143539978817766855967075295510586627098733999341872079431299471326375745418926188286494670635613976976385060364092731012358409850943155717570607536404624749724634776501000046740214070401842945681781457688779229847536198931234187679704854384959171344199765338083475579074843670013702848550054225764206982949085033649414725575303921086990360987006596274217390771918281985239217437086106935860623873094293810273439785900506073637076199705470628955625362820875371921374793613017869306328645632898760327412037403583090132166899375403086551548414546478180554248691467212498409521785732455150687489710285782195739586555808692030823717676202663290452179516143939456542131048922054644680484474772925467180149309981496708044431612061914617429715443204132046407739466554918905253387915995403584830914336532085368509047143863898526250484100262838941464576205380339683600300110928066083157951757262809338528542599781149410671175130202684283160769718598462788962306456445514145150242934781744903992038775752456977730047617750130454866318151701973225874782100056120165935874111428510224708666418733179368522452072255226178017802523198259839903218427976068479092291531548128270607803811495825998517906360959428605031029613988108562879489010697443063301850322903941660952850130224326740344765933139858276157082102992102926119360141512963875228592587554192994380847817301808424827342771615701998529190833189488375770510292399504340358460338486836420100656838853977295432918974368762466567053996420622808109428109945027233044678315065419452504803134125243073505251801592956645447090129481537734912065439114082493060622046071679422494359317482284392541779340374400588065801753339269202361813323029211785416357316333033575991920244840856911142303474932432847491978567173417598625847737005439138174648004287160040551199154855397694120823493218222711484851577023832526389737192701145416848017132226823622707995782078122932650133891135367497595305792865356454039770018835431554870368541612690311980418518884938656323705556630988734933875389740892531783133427251522007918651140801919564987768755767442951812491374055489973216437367541402632671823386015441750212355655761837099542517608133033024576575144379077466208756649007363500175566935008284403218386202050855034729252998986139962185420249291675098763521885639802009546959869909246292935801975808661430624381314701186073180640931541003903649015687925842143299920125235688878196678358151857938248818266234577200533157114381502954763684248952456982363260663304802926420552128460142087851539752828675924171841276751101179970889595038432317709528642081117832259939908821728800113205845453022778484670844666424856682887032891606403538049586168830525236274392121657912824080526378344287968614314817521215004241013032826928292094478290924940601656910387984440311589563996698711153572354112893991675519870267815000618954300610815065312013311053949949426823866332428677228277257374137050344138018217875173460643254520752588498914034643727069914371408340891144060449054653092092572932912643849802371969120474464950100451663279022249308798517163305340547471479849238139339452865864912833976929846306058117077803986501310917352762652123700726559714405216426299231118047680444211342956043940039898546360060880919063863048877345947634031164723476575554141077095418320641102412957378240992370322918246308237781249653664368114173569471706021344173483374668169052428315069520400445251646978223834337557460380255400779860421869084394995363450504659766379518320284735625711310506

/-- Checkpoint after 416 steps of the first init_by_array mixing loop for seed 42. -/
def mtLitA4 : Nat := 38707343547380693401006609422003161855106889635684840309113960338577234146376481708928077816317290386892042046901552369654111789044802825707487455970518728968146716681001246684244849366177080274195257306553310872689946778399202405880228606338447408689924766549114445582851769578982744327989606490282210978571979491513394699476561059592774458795823054170087056185187551019407743446872721429076075017259121442301464137200590858839998502312588849111991922159577441812360537922540720109573242507206722903708678876687413938700290169403376360061285296603161380098127842832411953986794746732646309498117091627432059571472830264132012070591976693236750453401455981718546593635063440104842616781227836283551456366706519597457410187684363310042259931249971327316857034186178312626483899320802135353012785719831927093888986431531674281525904478750277430764399843210478064727600785241738247235838811160154619839043189823707298573918515883398216867017813573516106344723400099087455961461933720533789416793477347214933190670324768272289206751325653254572270869471771623764563680029713186874233145192206470872692382125772053794398914088740077903368138983557726120756796339345495711630097508463884919967660854559822148942337161044282523613753386432619879418715136167678605417431546247015679854097342625470435618186979994026971259683944326339422221984394232161650594482349157877751536007057943839705649261762499760669462224347959721019772545735425301044312735302671588358419772828084371092331200405084261829882321393669866575595654765104730150970062885402657954995045427147496229463427395427755954903330466744711471542659116318158200089150868654687047056166569392801343383636252328551313575570563863061813187960103558247396931734880486295022468653758605334226249508612301026736420389936981731292287710520124683128043354669052300594155353264946538982997175958494937800374629547462574867185919397198360809858438331203997599018430564708828379998066223043062335394488448713969351999029002608323064451977791041156499608332499148144745909629599877839936049407517477875385627174574785367134187193908124185904886205038171889222660988825291025708375278618602308055786584767400472722789983712086686202733471627314249058629034068569559605091682111890634865861173248676236071010604933030853179646518529330760018715571054063322566275899166788853792752771213454662722254150461386494611529466656940209779371539973563355840624428559011120110113426678747350348190821656267716641937592365664826450943723903564526007005055992746412608019711101638605933087139340181489792776786321448586703710172335515683526317795775422520447811723633705067059072891537504227792500423984388917187917119793066468248382129284648474366270811987497896343583804910077216780207347464437999700828086582896878319847858641990920867879297940069137312965845919308155197267824178014191509692139495767537471761847830603453406237901834822419421812471451412957430409365699546308392941304910770311670105488167382140013856417110236571632250137387862854037496633533407708793723857925551636022310868499732067869143275986506505054398419083221456867361410227787116325760703328300047693878926025086744346408784233020225351838815503745279792472955404620483225527742691471171648702818477606007045765443819264798125693137584647882685053911318400704611373589982530742548574502029431133455252620854864672852210298377407353851625209078905217022765656769830610828300039683848142825470897125210237307446169636464760309223299504772976534311178213046462971583644987340414305610965580675186919779376296292043519262140498021492736459025096045281050164758305291674664805132544010771655563048130099412628090843114214040089204545592189597181091668165918825710553337885928804079822914204668789059609129766701964451976086168193128193565976306224669132851102944245314527791888051626911560454733387507018014895534182887978769884850246464624380808276009653754748542577634275626395634992725460803748761582967681993440626962011675917581871592012664402151091051511615546252858087533865050863486193235823166427670936985595707058806170322345383525577195018129328493790669721542209471883737635252720809961063102422385033820998652723676370621706776496551287781380102933924959879296469560204653425050762103617415067496803488434049297614133068868160080174377392142262239584165232080760259724019067345883561322394566483678232335233653959868699539389578278795736746380182549203825490054696726004913763474863593923214823561589661420479424828914554594721811666527297066312402478322884931365441499438290583143179026441172246744057551160376929798680127502967550118466662910085053824699757869115719839784032923843625636784003396026319444397219016590542044211070696632597738009278069595907672407121192083294016127939275648588236521745421468760149867673828656603490301030871750168982706596352123885019958376158974195411730925999626176796842574515801738939307226409844509231214773144684436228366526902005818584970610685091180590520900616311655967903244396688338131042812709546982727396524285698333299298006811485606457321907281967257533353035685513670830954539162052425416903771415160346244370312512649734374742827269572668740071010632496603512482058714578513594532280258753487597018335613977890135259622803027712073603301083950044538592097835776676911178552044601967748000307297995135390643606825621950072222456934775690509715480220359090756748029602524715950642594249210567419780294606278459264268938931371238965632429182770240517828684969373834449919963270159348345925216975206737021036773323854141830549750751410471975088627878014855066361273520967441531007507646343395672979749667231756685854549482452918832782242832798104222136846641614470334673716710047565689150141866391072254578042083584057324915766260851140762768208291161676138945274838976635590815358216336825827054432870034017717714037695323629207078696684719948332554029781980035918065620193833068433735721238307962812273705529662877462180983050908889922830319582156273560429555091394352369778159063708588339918913093745675617394682248265717609081707076146728523434

/-- Checkpoint after 520 steps of the first init_by_array mixing loop for seed 42. -/
def mtLitA5 : Nat := 48345339901408077492288126585012662339678131622883717867836037137083505739042114414234317478542988957875291731301596500070341537957254891777110529748458390071923929091327577563804116692826728862370342667211951094285784767318291204597593711849049343993885021634908877819171505930687265917593290139290703999168482761889713754504270178261358791295160101051493201945445282602547454791620682351876829123270039143068170651234716147031667141791245584116428642057095478957858970136630911205126042074609598044109310246652005006551915520675612164336682807845052732804776512487049629639636349224327005989288353897644829994850690464973008526886212379995964835849405974470492648194187187595656461994830166360000731791599630214623635455683195611941072494478918780632820579388245454330162286744867962091987457204567541651425301247020199038195451064708848946199982763207545990799138109894262270729806536921252308956517948450594723149126754574757929836526546039776439514310191628570131290574779139974189462702015284182956139756020240710830628249001146868737492180430524047668401069221689686887145102978967365019523704468511987779210015696862191821243426334191374708892481033122790989569779777601422007244688368464410329637528121572392884255786592112046604042630804671903396584324917081318055256661742943506048377050871070193004299298876171860252223574573929910402902157439093076042078118821006916912394841299065152723077871272438436788598658281397094104887397506489296875575730295696628385021591799128735701090463657319332158007169048554596615945164445483116065396496718681622744053819899132599147515233041980128062478577919882694370692958592281076315462774068605183114312513581469014038527398104302553041871877410163933160798781534729149763782920767340526986161943350715187873562536012875425027305544864493439327919309532450075753355184623866293974697839559468237893001091087817660937477607169938424591644712864002196821010058534577183150189352403206790137016074693581380398085931911862485089591929752191901655868339970642855207653245664000251289053356786517000808304805609112908160470074219170943391095888120351059832851373077271546409380718017141152302313692551732321080066902541611972883303383928175501321417687678289622079749515230564074589794727698855553824088401681360513294519965825980361170222567617613825471527553934290680925135790182292169203198519399004820567240436555404713447619097537144765270153529971513881477564138680301043847635920569387102454257741016635417071360295617251570941955179425126986025362560568177841232825743901437309800458585846329727926720804866810532901700272728757260524844788078025485252124120537073553880469949950025967966473542126060449143174211148623380186939684851839383435189728947276930257078862042286089068784559194610782488105857270487360718230784105029443983567773781387474145936887605232555338308940379350618194918055824409285569419138727387612952428326714193751493853741415251238222759674985878135810085653611085361778594645013479887091772094416448054870085557541283524184680940359665283944003113813252795958956039805018619280349923290178914729506127444372853301152300367468485714675494828153638161778184408904114990059774784138912938940038034691850855064005620267309366228438670560866647846938639616757738786694114170525374521403780259582220332869025541818512854867610839138420988211727776159146963230500310832353208830594087671427753605790680167756846117271746208553211129428936309678888731006132913597916703083630313209469177468807437694173997287455128737484484714702861615260833935264997222819889904888837728515974580525400400985186085067938434263899022142054219436144104766434634435904466882489166062205002550082237571181437608966638695907738985917032313845358569472738003390321546995958334636488125583420413028840371298311243155990669870076066453114423795081993561933090742418112199283356136502190780679199011999019962698726619016667662691936079133644086766664597043764918810912812293621768069895727243917129528416216955270372183386303306328718127479085255377924963046853407739131373704821960856230865914797707601655661978229734759501698047368664165634494567872122205075678527999259596495104320945863706434065331387646875199813163534486988632884963989946121355979798352621274541789038210894249423069854330806075039631866921574593648939947863518007068788762748357973713003963804169941933410817306455699264516220311550502887092126776499446168195664495012516656898548505355002695578360589539951516616018241953851024919926075033039420519286915711964140908469101226389286257100101395628607550329133455569121743963821153512617945359537907184587010389444680502634556536799457217619498504916147325398423557181778821207866612885965468158467858360612965379267419498663656700294478892085036386729694810069779531198098571374357943397244851438780102572761494843773021574570856966843077200636082707993724591787400021615460506898582817497050226232688209679123070769745090448357111232259455444272585124608433653735123530300601652567749264769419716101153637891923374416229347682363850524426273438797690533615421475840289656474005902679232047645979232019075109706519205509127142130459103993781581475613259250850435345906156646273591738390286500921659882646535277143362229764620889506573141727437497850308523592803776096284969675603548983211291537932097953955646819082821861928708881649344190131699039004041167011360514648998462516438143654518465733242095788942869200271233419664411131966529936090279090236655896871079954910528280417932730104381081775254719784380960498027155904402893621795364056584830660563336725119810850873611377074480256803007956154077299931728365576757820698177150217315940358890236544716600956259481855101391483613738379911701117609219124261222286049410408150513242396275086708652802624641180446874606861512149859111171896281898412577536702841702761347182326177440699315076000169454462911273363714265949443305089278550239648554415913544707618776496311100709985777517508117697526795005194687072846304381536877675959981908207147146833012528946559928037510140572313200880244394

/-- Checkpoint after 104 steps of the second init_by_array mixing loop for seed 42. -/
def mtLitB1 : Nat := 9857115944248316946836673939399742296356484598437776925377558178360883365000822641568472376141972021068060579491161500511062753326405677148985626071487500536046169271649411252718801323230203061974078142896032795225204591348379696056306446320150407689048532981830438152612868491884564711411296192390132839125470828132799457188614190704762962423658526115037155840582728224812866715485631970434116758491027423634838660224487616046507402681362650144219376598036371368593731377398331703135689300174135288807347408744515682044508724486522649608068514001218423727326676002996938389267614406584135770937865014636727801104975160229719630837965193015964496819273022159442280463619937561266236507885834743839815264569889111465538631846317078262695237542613758359472164268040243071885061125214134856671691577895851009140661128596166800540850183696821183268666475138070967194652649972392315788575778936611729265202915105339782345561335382279491279766680292591304818631352319879321423129178231513731464955115889123393781830845053059704528331615553707999045200385029770765262089861514590785310059853037090144235436697057933769365960044616229377166269766558814726065279179745091659218163410861887921263766565164760856496172475195506970808259757949185045778602625513501179347462096889017109721215219761450997689449953439447847107457485984781177509015875512154649471597505700514976720524156233521143307937180371577753412690370807904701444650945694310580720562063459617950198073076515884208316294853963292984313930751597863285662232499738308043591949413142768313914526203345756796832910051781916056449939654495362704366286927539967060966982337867399503921716342603244808902512041816708847915280769251427106503167604755163647002829558835011027161750816597842547606957033865842182257533304784398232822634271981934510826829547920664942607453647351892775356375975002299083398139590134628068171401508892547546417145555563389271274187160314786593490707540644108688410872545036936409100575267886422870847518344236810438932096368635381690131536658663086204028931486565636327241096574737445152130099148331778180974546217304081286032973277564367395738585693644931999893550404098997604065112710618556717231893780323615160811798657002330625442615973618007881042250266336482685297691646543440625629054633313624337677411165072876144861006539702268874148441755506611061024902255069087260201839323042132204682915484145022021148013789461636883437630052465359779836768668606901644475496226002923484507038416630968704316089108301330400292734909149187636562803086860978599013682577733044330672424535368450991078652200972726769414026123455407664177671042418109254962035139107233451073929249432406534865198266272904596128464387097246914515695403049547602059655903419353748276783807273453867648803466868961286908644126537233625108650969683725139138195761896716757632769792610233524464607945084159563012627971506049444907003525486965466600224899306552906746545578213913687512713572678843596227403242341834748313312459744986469704283211736729278428452900253651213316834118082240758579722564426928821229871571451750540691208448753454145882035575240801201778291302514529165926104201960296984403665639886705014079722626845223603311996551403353945948747454408389106978024856324548451609518562074014087333828663835990674846270918017207477134720704338196406460754962493620456751176857010517859384827684757624421525357534470463588170370318528633501865316686953736177327815290637762096234544012579995915328776358057086340161722647351197128050681644240063690779069205806260382766180923354143955381921214737920257621294422310874493574521494452542289683039825322133671623229821691253390907586552521974253987472434921243491241030456122351781265639429353691448376914762210283429719583228429029029096265511922975532282618958439855546107428900924477415164911684761853886235458841738057000213556564660786663161527536249136479270865875366722446939165499414201992946955363153745474299556450419483598749638284399837576392748693030973014907014293357227758141548347430251620522837909892368662617028999332050827287046274939492584891694246756897180342142295337420943905432857102003475174404584755195265732882719929254268252702394767605869905343421318810979018555126823278732564282792174761504856830122327476830030216874885978729242186921622777313092321258412643427750273298875430286378225528920937196638047740658642173655248660495836430440045932969050186156181658697369411823288955945966636995621084464366216205902144965797857182210438721779407668594805190713990934050986921766494329455694791188023004585728896123227267721451515152864300417801739444161887283311083170126988561097819598634008251595908265109521279911688782730463192663741194369654978007576468517189374768364089943644021369833763125095767819695750998098135753350114657852842893993632988677673393681051722955327232525016219254692075416239156454435763968084555379548520674841340539434279083644238873821129419282685703518485488054121170290139303744458501162490303934370862672691615125967030457531186355432824838171455263060712017437358100514536606248457350488365598890568895277444041610332134465647800120638695344179215849986540009291223204201952207357012942585806960894385702642346473353705068601935093860930086036409683862667922412619031747235884019287121965264512907834153327874502575176394342067227237976371627809220239103363482229256575098625828088032011433926117099671250058276704753087338307714359620014740904967726688213377190134400564770016365244491274005081072377900472824569300939959056329847444341622155556415829555877079475006497455671100913015182169558954545448215995875915190637575772364819880215748336759304331809835623500172934942155082755731132874314803653173231389328611969883029641302201821307898758809763657852127064742266767629645741248913575584068086479339556981599436544244804749440194220390926077876123069176400531180121384856360272823024697633625978685760647174111506214900938226326093551096520396526145272185893287264621754272334901860058156377618055470513485849427180119765701033827356099095

/-- Checkpoint after 208 steps of the second init_by_array mixing loop for seed 42. -/
def mtLitB2 : Nat := 19495112298275701038118191102409242780927726585636654484099634976867154957666455346874712038367670592051310263891205630927292502238857743218608699849427161639823381681975742132278068649879851650149163503554673016821042580267468494773671551830752342993008788067624870388932604843589086301014979841398625859721974098509118512216323309373347294922995572996443301600840459807952578060233592893234870864501945124401545174258612904238176042160019385148656096495554408514092163591488522798688488867577010429207978778709106749896134075758758453883466025243109776433975345657634614042109216898264832262109127284849498224482835361070716087132200879775178879267223014911388335022743685052080081721488164820289090689462999728631763899845149380161507800771561211675435709470107384775563448549279961595646363062631465566676975944084691557210396769655392698704249395135138893266189974624916339282543504697709418382677673732227206920769574073639204249275412758851637988218143849361996752242023650954131510863653603065821682500089059710324602773596212409623673427124356596747027627769733644835043580494923612190043658874184790478559681589606603760047091968899245841605888679513136298900018599587852360130943705006861572582506809251784665695806311578819113361785647331071679924927991213152346331624510105582349853877367203814711659649375882943043797072238038344337968990132793182909456723618269114713068509839616061146503799244790364881909763671412191001661117977880934398999786135327381397466129287020771650992732195190462689221988540395875352989412013799551186554673217732030028965596302128312329837141607435699317032159937239659028496798622729025753487905573766111704467449527517329000575665339590239927406060024767771567548120394908396616837840382323155562127506240173092852005608231408342142157915376441303106795728595848195211053669328667958773975984561291398833286995857658529915207625121130681127575696678643999330846902630967875947338963057165929271006189869937423818283544354403414707052006105868943966145359691986943822438153447064460684989563078687708634590477835359935320080556035692455669880123759443732893718531288471600525842779536708408730081836999058505030891884547503998955815289689557883809048593669065094457113226755404178171915561282680477194811643277256328831566696492615473284326581534052274927092909529687982393719065709831238610815978461000646384782846275438737758956265523616785714524574916400449296714529182623781356214600966091241742284295419360429681312129398134661290784257170890824560069919388198543259530728097498717592572326797588205022693632759826091504267220416954673643276262459363166369954841960467826591090658366147526471628917098671032680810875725441014197834914838112653670099623842672848892841643963426352262780097792246876465113683922201468600079740290796697272410580803267809466458133919520659422126145641899493244627613400412638084628767385565344952667732654485748028145941083507717168441581657107815930025586151846142470496228390120615621188684033291687902015036461162632989637738998874228332481057627373048739766512313718709030400359173416166292797282559305645637346070472750582378062866110846258402530033933838021562926612754052988196073077195644171378424427203382005534997485405776275011151692758644530005857093467455904131675977636355092107812674689075254003793601055898321386961783577336973004342560578945497441269344021906903926360139218746151873083787294230845034809239682140795835591484172875877357572222773319143793007008629427926436752735101225194553063012856394311940279159240769746687052894649401586978916122126116937090804560934868495784458020211271932330930672810208758278773835770333979468508244895082096858790775448298470685709765993856148006151291514955953448151567268149503135035013806125397795647995529293430928613618482443499853621024176696102137953310680464012012109146148859424011814264327165191070092817613232328851800126285539102158969832387340604585565471037561524057055762661300589336665209703534268314446878482884008452378593170663288106925616156869727331469656303212311202816188448658733458199520155999451962945815637687072613119428291320954219939896799080573034757992442004080109914392154337263164253528782140698411222773022514779758212541318826123089846952587718893614196708657603153340736516539657097643385286707604662760172439946274577827050058838710627862103962381048571267746042501150111916272928206091045199412038634314821347748836758420911225438381913302306535667531937544712944243352476378729006654938492063148016677905142866171010334093703394577719466328510450091545465738398786704062086905636904161737481681844159664307755991519899901664203284548730396425511092012397360782412346138996251569430961075497400206549277046447052192357521471507193301279715354833379564308826368259785792343735677402593749156545062065399781189561406427102207563831104206755054856812318595144070701227911950583813709025949923729951177210349003959117539856911822137894025259369862073292771263822578327142711749535965012150469258791456920598934858396611298696376995435680150524574899024337206296192532924179092635116592585104556791131142144989783169821789329133075619608770517546888427156022252069985572606297207029723812445265794650453304905734436332567103333966902804587727630153452929123846097957636029597064624660818438826589368083592973028429698980415210320124765946046679943697805310062226861318339659728204655526592351865487609014314842767236625496026655112570787588010354528112948653924414764915925494616894587330808069432750939746958835591307996301793946452828734749577049314667201062233990937568181814504841130262245009069753635171922958738737427070772629731990546893189243059644425906991399738370977784125652859190742055581846501972965550730705793309432900735340379215981608827352764854844971296337246980721618839345656654190585344369086078167279307094746948477185759595979535462101261244525694896273004862452856633345935878335939075403237718651897506996200980290262965152443398705515036795432977082778069313886924311919923319367474744281405730987439792113566231

/-- Checkpoint after 312 steps of the second init_by_array mixing loop for seed 42. -/
def mtLitB3 : Nat := 29133108652303085129399708265418743265498968572835532042821711775373426550332088052180951700593369163034559948291249761343522251151309809288231773627366822743600594092302073011837335976529500238324248864213313238416880569186557293491036657341354278296969043153419302625252341195293607890618663490407118880318477368885437567244032428041931627422332619877849447361098191391092289404981553816035624970512862825168251688292738192429844681638676120153092816393072445659590595805578713894241288434979885569608610148673697817747759427030994258158863536485001129140624015312272289694950819389945528753280389555062268647860695561911712543426436566534393261715173007663334389581867432542893926935090494896738366114356110345797989167843981682060320364000508664991399254672174526479241835973345788334621034547367080124213290759573216313879943355613964214139832315132206819337727299277440362776511230458807107500152432359114631495977812764998917218784145225111971157804935378844672081354869070394531556772191317008249583169333066360944677215576871111248301653863683422728793165677952698884777101136810134235851881051311647187753403134596978142927914171239676957146498179281180938581873788313816798998120844848962288668841143308062360583352865208453180944968669148642180502393885537287582942033800449713702018304780968181576211841265781104910085128600564534026466382759885850842192923080304708282829082498860544539594908118772825062374876397130071422601673892302250847801499194138878586615963720078250317671533638783062092781744581053442662386874614456334059194820232118303261098282552474708603224343560376035929698032946939350996026614907590652003054094804928978600032387013217949153236049909929052748308952444780379488093411230981782206513929948048468576648055446480343521753683158032286051493196480900671702764627643775725479499885009984024772595593147580498583175852125182431762243848733368814708734247801724609390419618101620965301187218573687749853601507194837911227466513440920406543256493867501077493358623015338505954744770235465835165950194670809780941939859095982425488031012923053133158785701301583384501404089299378833655946973379771885460270123594018012457718656384389441194398685598792152457285388681127858288783837537190348462788872299024471704325594907969217037504338351917322230975751903031673709324812519673695913289689664155866160607054666932205509363853227835343313229615563088549407901136043339261709991428312782202932592433263575581840093094612717935878117220379638353877252425233480318719847103867247898882498653108136456586130971017443365714714840984283732017455788632936620517138498795270925075732012878517543927219281593187819492183904947909658826756553184609123799541365289128060425683552282296150183623632023433350777283411777220299062578564377533975913250836455056160919712510636851893793778072077144602086619521491188752964790618855741116606244906799624640460428461783484530589691657267708881430136617736001718172538458731013441344765053537899396494064055606838389334325788680168671473645307956234748459475385279176679657366386429370921587172289108305383333161431420335053116568599199623403392009771597829732411998034435051692936085668274062720352999177358451764749217467607419312437613114411993075554746867132207282304241727331576885978229423275151064808685906925776575464981294586399704814962349557075948084475079504059657921975982601319289852880377965822037782347742196143852217696002640410787403755852012046404558588468704559587405443464172260949978712731499095623769276957988565022297264141535450332311055460605783009231129792043863770593519062325843500443312142366676543915077007578394156064269516186206797416038516929582713173186796607084247726935647808709280235168710638329402308052217026034196297654518459565653818565813759539500421716178606600229502994106928088393930039111101907990777592207098823070531378493591833839358456367020468422386099986193126533593278640935253024270978262435826064973268570241766395993688500769374476105079369329090646396063225471012438180124397320307703318447110713222046911008210431938156254339080174610564992896414363356517091547046145358766394384293971416783506858386422195015083365882438449682620691256790333973176706621158960000076267860117313728897762978807153216336759320389840813188658589031987419838080938863854237777379838795774144516411397285971338293247572045693211093078285937949204740976566707958837163688447128724539493652464292984085584985777713948241635412251601521579599008782277585270007102564362728521821329318733150631447443441549810833115789342325638822458116006029188201780382625394093847049183992989523139742876612420144739638142524742519874559727993691381817506298701186930219318779826500477151683556282318799794584160688148577472099596714364790888758633968738683843333556416329328216280608121473581626108245291068591925301987635000406103891975898389686141884902317907505559923905883378182814878562196243102983993283245506408856574440191614560653034468002474576810969926705354764280947269636523586026037566328824231528414722179455532932447875002406610604985707309924133189457854337434958609011318790920297874076033875147589738393288982448590024174043940781763826632317131414294850910552391666588341470946570979212344530339920687647905858607212868950547358301590215535498556749964270669972910003339635091911249419014287655548314709114228280872278335013579091869747370472551846963919961271422483628641958138795010076791232926736431705615567831016306734638848790758443039906555458012332662935378569575262438141914809422584358168864335003732815609020610991187519754303198668503862931840116972750412546653922502973805700698701446916760416867109322004043270331788818635875523560458575908234914734833036383154500083336052919158825529596569514949535734631356877180705913197182774032942427748460146406896049683565196798504787216144497116674187761231921701597252819586836684095970859664181451646063794358547975426522944468914817231993893682202916984033523892238465264043819061378186278698504102097102884296798676782581887683904331762465740931607

/-- Checkpoint after 416 steps of the second init_by_array mixing loop for seed 42. -/
def mtLitB4 : Nat := 38771105006330469220681225428428243750070210560034409601543788573879698142997720757487191362819067734017809632691293891759752000063761875357854847405306483847377806502628403891396603303179148826499334224871953460012718558105646092208401762851956213600929298239213734861572077546998129480222347139415611900914980639261756622271741546710515959921669666759255593121355922974232000749729514738836379076523780525934958202326863480621513321117332855157529536290590482805089028019668904989794088002382760710009241518638288885599384778303230062434261047726892481847272684966909965347792421881626225244451651825275039071238555762752708999720672253293607644163123000415280444140991180033707772148692824973187641539249220962964214435842813983959132927229456118307362799874241668182920223397411615073595706032102694681749605575061741070549489941572535729575415235129274745409264623929964386270478956219904796617627190986002056071186051456358630188292877691372304327391726908327347410467714489834931602680729030950677483838577073011564751657557529812872929880603010248710558703586171752934510621778696656281660103228438503896947124679587352525808736373580108072687107679049225578263728977039781237865297984691063004755175477364340055470899418838087248528151690966212681079859779861422819552443090793845054182732194732548440764033155679266776373184963090723714963775386978518774929122542340301852589655158105027932686016992755285242839989122847951843542229806723567296603212252950375775765798153135728984350335082375661496341500621711009971784337215113116931834967246504576493230968802821104876611545513316372542363905956639042963556431192452278252620284036091845495597324498918569305896434480267865569211844864792987408638702067055167796190019513773781591168604652787594191501758084656229960828477585360040298733526691703255747946100691300090771215201733869598333064708392706333609280072345606948289892798924805219449992333572274054655035474090209570436196824519738398636649482527437398379460981629133464672137789894903173560090475843245665287750277087606110336170632655946591256510774266625987341985119086739565854097852901927656387294874771364706167375905727051468509562863099107752742389881542931848897036145247885838036348985591547944953146651359489822364917732812090934192320020663773848316534493953709207815759114575728448424503366575723149691817477094302277907385468384335645572682113946155465491176490064893937092889459169852994101965017474098145002698134882662215259923023552967080014922592349954058560716080166765705429463147559619664948488901831100889157920208410131723753785056706967904609394405058623547193824593370069956649998176458135079139190607035994139363155181488905226290729449983540001315894654210935919983806449981023609904641492372893998618953009772426778589480595425648423314906659523836187537365197516892737464674204651761935102919856533320598074058098364665304424336111642464192032204186540018083412183134895365969450719216687903605287761736225979324820393361188495053435069904809574387165751570196246821888115513219117282571794873928936835781120663822268783540028826273168961011359429026097702131363521311107517264446533155907143604508377461968257683545821809415448069773074293972705658471850257359561225333246720358640450752635961562024791181970610926274293501692442175259175353317788823880064832626568325016887327339407937312517069817389637417759536690789262669806885908685030006644339574056170867781353046203393304008062754421502874336514510078796946069548388610343884247175135745939921264400175529971117544444665403745249182263411429324212593563761712408722831888774272406797783931816409822456027676537915917215992565446238001317891276924880208210681786188509918299788479942261420126335282589696561535703211445771273065542130798650000190572047287365925060906817333910918702220007969147577991781893504210163756905169666238003994066956900144603053160840790855990047417895117814559433164970287605051009745899821680911009313395678502265013730325103736721151967519966791534694034128683936876464431491256683556001619206827371546231353809507093666711869028860671657654448279221701881234175233976731843141860299596458375449187635198807701833430813906648537845202129102256537412181759220786105154466505770407642956929028959330047772815892080575466026798706858588391991705238778813783906397895556230184381412596144453867571218083471305510838707173315104970240540955294678749155758095619746717577101485263716507522551219922237123490977364493287818923621056115062978652282556083871240145387860301871520906293884579650703782101081557570584188456578777619110753579729992676596696723558354202555273584500784074314861350673389362388948841082188359208910380139924755525839261796879929962367540558242804702384036123201877444432180123509145315425255301859410564467160297722442573069224475559979911651996019409777738120220347198913737044214072574760171659563078483713942264130412269023176709399761129313154824832121933019390250548228301338159228877907362315633752329841660751869396048632716501949190529513500094976308978521231032777850697705680285169657160743594358451886109169207185923659816816839518181110564478787798644095509247701440944988100498042590430311606364746902054480682599862501012167706289070612837677586673510740365750951061301060533629329817117736602598102748856100538744588850286240555126964638996280811177895415688727570034762040070384668225842750723942158987059712865988679506922626017569796266486777961715841520546584747529015728860077166346845674161618766507099058192202565023602887593025408692952364616471323116734143315869624281593243069750688656581172605306865108484530528690176920052947720833168956320387766626609717921530215827418171949048163530916076146288068933949738473397010113651108178540756088388200972452037069275045986861126416293075435252670813473287135583676004613385520630560796603491359960398741055562500506618402615447105673360919931154254653764094060549279639693351226619615641972158858070610204969848597572722679057256781707098372516715812403131476752214864881311403163238935

/-- Checkpoint after 520 steps of the second init_by_array mixing loop for seed 42. -/
def mtLitB5 : Nat := 48409101360357853311962742591437744234641452547233287160265865372385969735663353462793431025044766305001059317091338022175981748976213941427477921183246144951155018912954734770955870629828797414674419585530593681608556547024734890925766868362558148904889553325008167097891813898702651069826030788424104921511483909638075677299450665379100292421006713640661738881613654557371712094477475661637133182534698226701664716360988768813181960595989590161966256188108519950587460233759096085346887569785635850409872888602879953451010129575465866709658558968783834553921354621547641000634024373306921735622914095487809494616415963593705456014907940052822026611072993167226498700114927524521617362295155049636916964142331580130439703841646285857945490458403571623326345076308809886598610821477441812570377516838309239285920390550265827219036527531107245010998155126342671480801948582488409764446681981002485735101949612889480646394290147718343157801610157632637496978518437810022739580559909275332650998038638289831260871081864855484888219896416390072602141293947694727855746435679288341574206715229973308175815423176455505871394720574132652654439705638377797596029150540201893977665409678985162290038579862542511269575698557647778251463332863088680186025250201433888879385510905323996188541872438988494479131874221884206610681107121775471477137238014597296817397900463708250473248236131270307627661060245169532302113532527419505812348249078528832809342186796214670954020339342234344944590863065979721485664832079287626002712516521071691243683541562327969194539884968701016351818416946064272909598398737158762428496756748180027858126526838783014474512849695557704339222687868321139043171901917375437532795781618261444417318962750593429675913206626870753661281404411205658344384640684182639842459779224711343201988643098294984642981407311368413277920372307707587222827462844182544684303377498704781024373429936429094819218161328289218902269492875057781355571384616760120405792460666706839887742849533897722608293293642654280546858336304448060248386031862665644149516171877843881853802439261584257339750346917733329525611270531016098840681422926015164608405030361626236158397010501991911482889024009978950941034506642600837881221159551095534164565485564096541654873412562814145157665439166035824462611008990408329034334053490924448170230558516278397266902670264575509006533188309986675893368851239905000338567540381748993923474259608234068730950585132392332491121446898188503605737684482256226496359263712088635953354914715587871538147004871841853734442173377221842231543091851303667721192044974947487011187037383097309953276455321738101421572260886957145545382256987911074040083355716011333161249399172886800575042238506964192409330798873127958436786764829972093039757037173265807840715624591184304775703548068612386846437951108401380882652184620513211869124164408289567830250513639232692202161840601792283679266926103217425006820907677305911437329374262068858475347048848287146634143069224225234166831955203037012234790601388506358497089393092777046056927089313335534906031364882702779814239451944213490590600188825203593153099456587860282078679784042602763956613544834576103440444732602818420288547275251771974597577672334249576027552992739735665456660766584808819435876494833466619526312613222729588997970991502371277638357677593879375536937116030137284942923969655728230491042134347010340354196075898456308761555041061626313073968045031671672043205882956078707414153248102425937813094948268111337912335356095579618899966285758762593015944614451580882467141859816856660473924608258311178662084323299817035330107883942745264303704715419555720389743171444896400969576531582312798094903802131713891872489002573754567701564131497008290636811013240501943576170874307214364927760757985619497692073014669599316087033712764075721899684134996495883295748957798845935746907093000477827518921185173017285717471549648686177883985732986573622908933219329608099223432657147374142360817879593582719880908883989460480864096518871527393936157103850460539828036159871580560276451200056482047476341929749353326387788115371365793955067216692985199026750816903166911115579433398991739104919903093879160462274041659580199769133993489159428735396721785192353258484142533912262423693057557828611038272645075224503561109342535908379405129182321698554312336422347657615652540062580981942496638805205062533664958503695651426584284746832130189847476719339916817695841513359080219706012355333363433848476420896788511194897993350039997464994851519743154608699330365257519189879265028256700351251319944436259203455076744507803379360462093000863206228558616063322396576903205665779274101374460924214543532405424880068249018750116401418675886375299286993536554626756946874949790497243979182867911008551261000109580871165677614913826064633552027603311961291944901918268993405751110599077010988901027104634130121805626428261453587181259739648585785028556235044713826213293513035566247469438252629123544880692470748022894011105856790084455528123377056201788295886601373118150944735799618606878586741553390946564657848459105531073862933688405177879374388842426743962433751714889274161081573249024038828416792810205723180590826161544603373639768038325618079478131373779004666994028947866093499680003658541854106311947796360826624811308801341732658274137596886770114990444148793831678196763530314932739557209208043828546831554430428173273497642992057068469573520373598955226646572631826581347280187142060164960028097369753760688778300714991677219321941740202921214802471715395086584664131135571887254008594462386732544833812901627807869099437433968524092177227404081425968635390406395451190195498427521609429431226620730356409785440544727706682049862988168475098620192897883103289681530845998860887590213919150260524474017521593391502431852076730389606616288913656766964634004252816292802010044945290590830697766363539393784960718655046336140687657109009720075247128723688417071886446377105436965394002415306686861123724413308149770350207341453643337334795256343

/-- Checkpoint after 104 steps of the state refresh of the seed-42 array. -/
def mtLitT1 : Nat := 82663673431515298878348125892076922365783069757798526784244050598313937512767946555105567842135433541961268832679564447481930064532585187162994848009574585122686978465536439186381119346285389971015664497868787229171546936942409743491868498635940684276698436506858484119070421511331132895304993849329208393304167080010636930173614624441936828135292295563718855043520888652492240787378188287948756429859678131320313149722218900291805028338565883078467138401494859521575283099145981678792121605979857514686793130943330313770376111649808959951136893973580829458877602381614555916176041877040780308989402930592924948451008392659903891078302468096510073054561268220357432569293521497131830922044988516040316696461890252658891937812137077698326841028526045017829237605777094083838852105281119467999132979162337968258864765593801439178690440189871328494739303638814863268844841313736550299766837110548953858269079978575300077403214500257399917385654509269855280076866593554001298152333401922224966669026142300705073497006787091546588638315672230373963619276949115860857537915195517971528759783091402967302621538207894751586345254545658890812158326957740026680361046254661091788809833141626179961244339817613410573958847339378373187693619441538637775379117387231005821087272257887575588666415472628576633153140593663370835676581874735924421676041910321962267240021638441198216858885623188152818149414018042869563767627928969512731857081428011617730744208084126530327493218283188330237634627043385971325726381941006315313020942714598258310683987876910665727287731188639790124681293867861646234928635170596055347748876320543460563710598217691119774835137262721653203268760315335132369835811988465882558753871413950567187950888491278778708993179769359589212223140338911648929104812059421030013898069576284523018150963896668952801120411674791778429096110671166995381822858827748143835556358862070943257843870596573540637319545893499686427023193503527501212077208886574386377910506614773834017585095571295086219028523946090089278153258661151101652418776500307460700083973906927280045011707987505449833896480127873306359431148607415078923831461270087142319684009331203361762220712446499023695587145239836507803911814882161915063108199421454462180373951176940080591277458243306990424535174590565608117888570339351020282643416147931579001026071809341119535798341882348591866021341816283858477697743453078021468501089065876249217344973525146889733762953917240334288868075485850723093607653871568457710689630971657574294402882195859207485343534840350175651994341004124212724981721578117943060373849165947808571471891508735080997298866016147935597339741326699207245466538208100666522864891933314470052847443745362970439547486838679354253152706760662870260695765537519959477479236623427719242905028476959368576490782805659127625261440007910351269462263618011075338316276799690902972302414342081963789515076393143995054867467145996471721122262153391442956285601802605476397557566559450267605107458855443216396947043236466552312718601892346433056767222165007631025666329375837184765840658676984284898489439007535391352662806494262031897013250263783539285102395455285405586348388035372015632823519802485179765492948982546612526153800948715917650443950850763563724409276334725236486125780651617723156297129367448296429400501658864742787022386577801752109777995373643436257912637333933711048378945228596862424214289259619104637366641443538704731253676073244211636412676550633624664133121478778776111533665195661274450601309176889593940105997537866071103429448805421406604198813742993998233955753216345778991410288420119110747377910893206478621845275458581206595814392549010399578388394455596558399177559012440595257880737519332053733088704345198907442504378387452888582487598736159677336669375019252418034169126276810242464452009879946391356983340052344519479660054088553061453767842109352665840972474712870381811517528648921344229102378851273254037244071546208559258016189186158802618570846122407575805735030986258251196917519792348510966228747838123198341870470991715526936441643149113847485699378420789111139857383241164952960343291754521639145070355966654445817548644348650273031627831871495744424251118353351051222881461179282505742625883322828268681808442704003090495155928716789727084061892349514338658395371297819336306263603709114744903843904591124462052342531061608033894644700791602929417769154835809424656043301921926405984733455919977169569562649687764138614136181729139101193691064746253805507687858731219097977446277929944857559114214479159089992700650344331766417996128520977707702114605234270300941059024559973626552283595879490977810574097596817932342925187862210088032263679453624373251399815432164509970923732755899633213695217078969529292889501568936211411421832673008676464711723258486764387687868195022143610469168114413816692593499503362135502793949170225772523155861923786490569333307891612009190037098908912854496416224567772506087995574471691774742094533496432215025256857202341100016144546835039088618003145661896218794110875168875151872802903742781557713510631621922576829327013965314462558910607387510374245832386602485298482879832424046367195004772281545240157459430345261134305848423905016247101405335038771587367751020663499173281674960601245806362914310927257165756281714474488240238913644659869008440839575707291792308724011297126518217912815880093562558960299097822348360851619800602620156740558704386714588775691125215459556121467904230651670431504824014709952592033099685857852888728244355750278225081416125258146807119371267004936628014505270845917989617797060514927773076162737978914983003359004784801650548475954067061733827974319838788204295905545982369983854495874247945043673889431888909727199167932135992284624569994137793756475602517302502233449502477729777898347973560520408686500268791951071150676498978311367047010465144901885122192336105267666808749217134008344965216975382872618754355111987144763873188424156033650944707498008083689866327721149032965139400841588771681627940573277283741

/-- Checkpoint after 208 steps of the state refresh of the seed-42 array. -/
def mtLitT2 : Nat := 82663673431515298878348125892076922365783069757798526784244050598313937512767946555105567842135433541961268832679564447481930064532585187162994848009574585122686978465536439186381119346285389971015664497868787229171546936942409743491868498635940684276698436506858484119070421511331132895304993849329208393304167080010636930173614624441936828135292295563718855043520888652492240787378188287948756429859678131320313149722218900291805028338565883078467138401494859521575283099145981678792121605979857514686793130943330313770376111649808959951136893973580829458877602381614555916176041877040780308989402930592924948451008392659903891078302468096510073054561268220357432569293521497131830922044988516040316696461890252658891937812137077698326841028526045017829237605777094083838852105281119467999132979162337968258864765593801439178690440189871328494739303638814863268844841313736550299766837110548953858269079978575300077403214500257399917385654509269855280076866593554001298152333401922224966669026142300705073497006787091546588638315672230373963619276949115860857537915195517971528759783091402967302621538207894751586345254545658890812158326957740026680361046254661091788809833141626179961244339817613410573958847339378373187693619441538637775379117387231005821087272257887575588666415472628576633153140593663370835676581874735924421676041910321962267240021638441198216858885623188152818149414018042869563767627928969512731857081428011617730744208084126530327493218283188330237634627043385971325726381941006315313020942714598258310683987876910665727287731188639790124681293867861646234928635170596055347748876320543460563710598217691119774835137262721653203268760315335132369835811988465882558753871413950567187950888491278778708993179769359589212223140338911648929104812059421030013898069576284523018150963896668952801120411674791778429096110671166995381822858827748143835556358862070943257843870596573540637319545893499686427023193503527501212077208886574386377910506614773834017585095571295086219028523946090089278153258661151101652418776500307460700083973906927280045011707987505449833896480127873306359431148607415078923831461270087142319684009331203361762220712446499023695587145239836507803911814882161915063108199421454462180373951176940080591277458243306990424535174590565608117888570339351020282643416147931579001026071809341119535798341882348591866021341816283858477697743453078021468501089065876249217344973525146889733762953917240334288868075485850723093607653871568457710689630971657574294402882195859207485343534840350175651994341004124212724981721578117943060373849165947808571471891508735080997298866016147935597339741326699207245466538208100666522864891933314470052847443745362970439547486838679354253152706760662870260695765537519959477479236623427719242905028476959368576490782805659127625261440007910351269462263618011075338316276799690902972302414342081963789515076393143995054867467145996471721122262153391442956285601802605476397557566559450267605107458855443216396947043236466552312718601892346433056767222165007631025666329375837184765840658676984284898489439007535391352662806494262031897013250263783539285102395455285405586348388035372015632823519802485179765492948982546612526153800948715917650443950850763563724409276334725236486125780651617723156297129367448296429400501658864742787022386577801752109777995373643436257912637333933711048378945228596862424214289259619104637366641443538704731253676073244211636412676550633624664133121478778776111533665195661274450601309176889593940105997537866071103429448805421406604198813742993998233955753216345778991410288420119110747377910893206478621845275458581206595814392549010399578388394455596558399177559012440595257880737519332053733088704345198907442504378387452888582487598736159677336669375019252418034169126276810242464452009879946391356983340052344519479660054088553061453767842109352665840972474712870381811517528648921344229102378851273254037244071546208559258016189186158802618570846122407575805735030986258251196917519792348215228819963393630803531464842648915101798893077900606170886721676753312915615887483079590369004113460903455244673623631951234914190490789999569949720247896455144707639192148223954740723275682453115140609060192664471582131303310125820438454464088203300166720752777187031504561396093917487114974152327278685641358280500806432752263784098539381129472908351832951561006594004501293473781005358764294881830251874265841205188827583565441120795593937963139690271107687498716133894628350859380041207497299249509848469708223819709690591665207138515569437494328501313999759640621170831333863189996399770460280998385133841694809635975747931734011691130847313113820537719044304725152347295459454323542346153592259790265699849120402943822639570346787887362029154111723564528846232113078765165627584359835036984366483000037738553647831252034934626566351420146418771294623764447127548625650629482612043706323045276146178008180161736369701226561807581348672004774133912172451842522774743994962077388281799357778173218797383649030977989917655734350673746828682409662894460904930871526427142179842305661217090829642053597404058399466906474580732918865618059383230293361098047387736141226024958163610068297590924154157502904539708129277824191588758076592659670447115181631295666865899316231809158812861158945294455300920207632199936865891959498599761985721626437823387809898016106819124390117343680330797358689837371203707061306303460766405529171007330665409379100448772241469654387635061732035552792736179804052493247593964885988201139762351288859380214600238423719162156251071372413390134216209044061994392180818342640986611785848662393720222089590603394387221551005596718553399513343661769064602553894622624405938694841811568813254798132263346798032951102354124481310084403655654790286931863655473253807846977700715112790826812310531051418652561052137319947989137661040569467176141959329484068570851580645751892436178939344503632351213042833452103072011167357650627123607190156635555882449481754678989878352766321255837

/-- Checkpoint after 312 steps of the state refresh of the seed-42 array. -/
def mtLitT3 : Nat := 82663673431515298878348125892076922365783069757798526784244050598313937512767946555105567842135433541961268832679564447481930064532585187162994848009574585122686978465536439186381119346285389971015664497868787229171546936942409743491868498635940684276698436506858484119070421511331132895304993849329208393304167080010636930173614624441936828135292295563718855043520888652492240787378188287948756429859678131320313149722218900291805028338565883078467138401494859521575283099145981678792121605979857514686793130943330313770376111649808959951136893973580829458877602381614555916176041877040780308989402930592924948451008392659903891078302468096510073054561268220357432569293521497131830922044988516040316696461890252658891937812137077698326841028526045017829237605777094083838852105281119467999132979162337968258864765593801439178690440189871328494739303638814863268844841313736550299766837110548953858269079978575300077403214500257399917385654509269855280076866593554001298152333401922224966669026142300705073497006787091546588638315672230373963619276949115860857537915195517971528759783091402967302621538207894751586345254545658890812158326957740026680361046254661091788809833141626179961244339817613410573958847339378373187693619441538637775379117387231005821087272257887575588666415472628576633153140593663370835676581874735924421676041910321962267240021638441198216858885623188152818149414018042869563767627928969512731857081428011617730744208084126530327493218283188330237634627043385971325726381941006315313020942714598258310683987876910665727287731188639790124681293867861646234928635170596055347748876320543460563710598217691119774835137262721653203268760315335132369835811988465882558753871413950567187950888491278778708993179769359589212223140338911648929104812059421030013898069576284523018150963896668952801120411674791778429096110671166995381822858827748143835556358862070943257843870596573540637319545893499686427023193503527501212077208886574386377910506614773834017585095571295086219028523946090089278153258661151101652418776500307460700083973906927280045011707987505449833896480127873306359431148607415078923831461270087142319684009331203361762220712446499023695587145239836507803911814882161915063108199421454462180373951176940080591277458243306990424535174590565608117888570339351020282643416147931579001026071809341119535798341882348591866021341816283858477697743453078021468501089065876249217344973525146889733762953917240334288868075485850723093607653871568457710689630971657574294402882195859207485343534840350175651994341004124212724981721578117943060373849165947808571471891508735080997298866016147935597339741326699207245466538208100666522864891933314470052847443745362970439547486838679354253152706760662870260695765537519959477479236623427719242905028476959368576490782805659127625261440007910351269462263618011075338316276799690902972302414342081963789515076393143995054867467145996471721122262153391442956285601802605476397557566559450267605107458855443216396947043236466552312616079116622777769647931266284811643913430408286873214835668460236977217616098949286201334160373198571413523055912071273440252367588644174968055184158884620294122290583596395685231112253354682224402898635545159345093757345074700402032738956276954166220288319993873423218181780195811285956207899043138591059985688473431543110079858721832801057486162924337533131334378258032468951188629780320355555178385830318935128598716350351421920622899477466528358298322765131176627624028081569238242756918125495013174976632126829680537138500943022577900588731855127947502296378788222752467419814835235477699717461518540128491143144882399140437678278547026649520820239561086454958223301823181513287654669040402693442579667012186050489590711405450600115118021215938573010843532582917032338136784236001156684532504894941692923433517288627692032805061570955319443110640659270638719496922336776982558881266135358642866753511778041234785287880139953884604095297043477944967674319356021479506869683011295129365053981323764859594783811191821481346077888282699994399570270624675270865490454662904002867228160765476780408468721656898900895374662477470392119662348990762333356827356252296233704042957767998870269786185329263499178513970690748979507385868657217861767331599691573517022703412450033859496607840034491117435910469779852742012788915174578024761769263754086117311831630013490448968512205016538102843019036370780411291049748806110969005627412772578667176272224896053547679309834339180072910963951993726723548221626820147683554434135704760133075826027932744153915464448429378983807947340522307680169967408082558805093637414897603062164774534655961288799666090778989420365506777515048273421575599800303369804312167721329726812938370506784816220994411865994463675816269314743207623433615455498010281452210484682864161359029905003959827851516303704376395337025461562093765667540455368392748810517808054072696802412563109728756114646506241686041250369132773199567316748518846554481155994052616913977383453548804593076394535159247699180896456758806659719106753405511175243836446368386311625859224879579319596891890577128725283324716307872880093992134201902177525488391617094907239358729749491529729994726375472654941206140818831912181927623202101412541209212609213110600193855840452757258993264831153692005746394922257116831753344599384303536881471787210708995652103074438856714715036540345139066820046436720202608007058192123879975164342841574457019130176299072306637928372529270339387624211965443616631840022986558770099305077862516710670589024920479520210795685768302754727194314175246586174240114322288196286509439640216002989149463069417624747976663346177537030368616133354642174059552910367739048852305911305046193506011363101152309073418470164198438809928507411707158260639287798382078059722576231341137442046946915965872849399439718077829997174537522746240975618595794203752557666175978491467402386779820975396820654045834360652341319901246208160127671700128607780704244214475381846339937470846123173488634526209107357

/-- Checkpoint after 416 steps of the state refresh of the seed-42 array. -/
def mtLitT4 : Nat := 82663673431515298878348125892076922365783069757798526784244050598313937512767946555105567842135433541961268832679564447481930064532585187162994848009574585122686978465536439186381119346285389971015664497868787229171546936942409743491868498635940684276698436506858484119070421511331132895304993849329208393304167080010636930173614624441936828135292295563718855043520888652492240787378188287948756429859678131320313149722218900291805028338565883078467138401494859521575283099145981678792121605979857514686793130943330313770376111649808959951136893973580829458877602381614555916176041877040780308989402930592924948451008392659903891078302468096510073054561268220357432569293521497131830922044988516040316696461890252658891937812137077698326841028526045017829237605777094083838852105281119467999132979162337968258864765593801439178690440189871328494739303638814863268844841313736550299766837110548953858269079978575300077403214500257399917385654509269855280076866593554001298152333401922224966669026142300705073497006787091546588638315672230373963619276949115860857537915195517971528759783091402967302621538207894751586345254545658890812158326957740026680361046254661091788809833141626179961244339817613410573958847339378373187693619441538637775379117387231005821087272257887575588666415472628576633153140593663370835676581874735924421676041910321962267240021638441198216858885623188152818149414018042869563767627928969512731857081428011617730744208084126530327493218283188330237634627043385971325726381941006315313020942714598258310683987876910665727287731188639790124681293867861646234928635170596055347748876320543460563710598217691119774835137262721653203268760315335132369835811988465882558753871413950567187950888491278778708993179769359589212223140338911648929104812059421030013898069576284523018150963896668952801120411674791778429096110671166995381822858827748143835556358862070943257843870596573540637319545893499686427023193503527501212077208886574386377910506614773834017585095571295086219028523849802588492871667684295515650787012504785741870708411846942691050195700731548386242024588439234845646324688514587644276135356590926005072807484462226926611788670597080163244474821818790969398196568202294358840146194227237399650220875974340451889361478946105316191611937148492701783111532796921825848034942749405368410223672324557720305341730519611364724375834241375850712419923328858776014194387863980845523094589169263557117666136314661720164437546423723561594122795633647157629854389493887059573231720347468679361159234837614058001601841674266351551270394685057440821007566404846373079470464112956521833166325604823716467052142740041659021216416018393406109307022241650899047582724180705858329108070971935743796620879482308727589499945098044306597960852346691134315518518890912690625299914049269376914886109500540005449925220445712844965946724389437995609248558869036587395873840054883969981958299034557645003096346871374168812090100621195600458380504540040709063594093898907050274346389062518264166539497939634969671329879177575470207714189042866921226304955283443382801520389056797032040647239309479025745377352358734997887963342792585934221981420793850124540464864575507364429545569440482313950642096602327722359073609394620709106614035007912145800625826715015434357226821980436399577110972054312632570841847413379039377303271119079678756431140132498823051576127255985451598688580649125230348652009791645918885312997262138181250177802378445942440413893822756902603601703934676440743908356360838420662052961260723388123978665792319291636837769537169811322322434170871085301355262248642684185186571264022807344845024283570073106934817296736569682877827459076325574384399440444886668244014928936518635473258899914856638241316767581255041775701122783034843606249043452428837752206454858549939120333889423476563037280512561134069889403553268851269772080592014208198303469835800320101542314749419106607317353079436679913769141536196441133864787189545688854129603176496229119980512211823318144715233335825399874441663081727043704491287318305938027084296789119434022072530239681346699753246193189758752892959626090303256221312728099388040864285749540628630919721923342920580548327823990114771529417343190824764634562695923758554796106013356844514469955078125868093986705362622907743151643601861867380788066981815145588539047784107743029293029763825411379978405654898363131791823873379505603688768793061067247702491087665057648548163814148418446831100654040521480666561740107731469093420993218107097792647583386686562297076562716048866792821059762496836193448253810120654061022074125069017238182763688949218526507477041104155957112217951380996944108477130027033432059447080234258390432768463315435352376145253757513999733279021803899791816477353098151747209059348708856299615390122470803525165033960487850094241101336094604777419318807688622301878026594368803117169808969882879781046268107880876011023903603842746167536891432137459210629764706297994403774468907112955912447460843870259916177276281821476862498843147893532230195700040336917905599082388887920194339773382003709732135169324058419991119797258844794911195679557074734824624272827876023497211098857854686487751010350837722364553270890608814689946763570447773699615747493310001032187425549435226380481960624512607696382988792379542082676547162727377967318047840590290266901144193578796445318639963175005231109777152905752231911459895409628966549056788500615221097218100076763718947035945597407585745340989207974802990656800412732897714047054698877332279106958788814791061731675956631858554463730522784296465906388781044861022824799383396039177224394690992972077387473723032026672794067368561825665194853875054553559751492290095115003156149342286518922635883288324907659937448539212601084971843120949546652852082177762055596052701377119231611970834858362436092882205169049601708429549681086161283232476492026974389860269857110936139475958600045408192499731122998123919284045100894548714395771550565527544586369265160314087644644172108668173211861738909

/-- Checkpoint after 520 steps of the state refresh of the seed-42 array. -/
def mtLitT5 : Nat := 82663673431515298878348125892076922365783069757798526784244050598313937512767946555105567842135433541961268832679564447481930064532585187162994848009574585122686978465536439186381119346285389971015664497868787229171546936942409743491868498635940684276698436506858484119070421511331132895304993849329208393304167080010636930173614624441936828135292295563718855043520888652492240787378188287948756429859678131320313149722218900291805028338565883078467138401494859521575283099145981678792121605979857514686793130943330313770376111649808959951136893973580829458877602381614555916176041877040780308989402930592924948451008392659903891078302468096510073054561268220357432569293521497131830922044988516040316696461890252658891937812137077698326841028526045017829237605777094083838852105281119467999132979162337968258864765593801439178690440189871328494739303638814863268844841313736550299766837110548953858269079978575300077403214500257399917385654509269855280076866593554001298152333401922224966669026142300732131590034798957076391746145360400244552927763024012893527925296234122146848777208192947591591620507415685427223757159778087765262079804456083211053013633154238288939022655548373716275065844129603124689030437295794811890825141376030814648043795833445696776684482321253428838940295428337280059462172760589859035491786164102607498522881146775343504393997770222940059749798981690768048752770820241086600079803401515576959797303951307531412465652406814886678061849183770254146169150494829706463147685631439387815831742614645997162496153131692671879843718146143760505029611852693315918255867068118254473274724766663704287668342894809284392148797385137693029921379610169182256476431305508983055109806708598204870037751415581786256934162419171168787975448096810618585656392521900534930936183365349269759876590863601241640291960284780311883334536751746699327360644032485252855693825216275796341806941144105899311849680768398215560911898323182610040155466185658207653865669751070349603597307130519636249055151802319968726693160351641466974376224245678667285805191467614519687666574855953377353671610892909190206858135907983602241014205726285951343221768126771340294451724741902865709250922876038055072365909535539559555319311266638067962751382986132914141861485240009484142327500830975041782397514482485168539837307647447067839385155544453471437190344554820441231099575463482404971813369040903157309380529301238349290687728056200263854612137712465722968127680351235131180516130973125721277343427670419512879653257769030319474219337660918828067994607666983702280968041449465680750633122890160613649199868887502315897543925300544764571310008627051826957045508902317235234461920372796789175607454438298880173939353178983823860298559400468504677866998885256200129081381517669975793030946744494732983547051485114971234635957104992805808692620056368122874516114699326605464799263180762289520898726297787897533504033475598015935987000968817713432834661572307979651720450917346769679047151955999442535072593922173923660973221414459631936583905792786579581787872250943687383755780687388844737261963827202441017999186482287041999538341800661669086321331767570708639334281926482144861058219540352084216208529155788972774403291792393492191847063999985958138632221244733215678964767706264567145885874327374303892137715427463147999253250680328597428955615150148095140541968467445751839188299396198599777068418948154155712690028529245064159191447515776466291646607700453835264613398257784504076542724247483856056637881085722529459057087500407803112933106297021804745606766132494773930606646459645827649288314939267030245682755655926189229460615294591342569872055680479203924776908093599285563932194234771218692864378371635704213614071486347257038397140046228961096292626416423791370540701792702337630178016048252305196686876755713368337475796989981816293117181729156803543364917825614286559816678091022342819567903388470884058305543653305833873293551336832978666962131871928380210221562098199696682821604332824048046372881492809536926691541415584882147937094577544891853969749402258994472460515286216110217669442505953614341615214325624019914861572576336889054490372020090630237894775745750592639040947363669947158759784326400806675371885430088115227363867953711600085147740411028041575533258613302242864109265155884616639360218826909709361004415723556118638114463294675782428700192870436367615265741700016561613384146730607248674195439505453270039345641925998562566770376139377424404271531585922013904111947551690577274750909592197482126664108474082687065349781895322453148716176182439429806390973943835103296860835926186422641212701100798705050017256744546705270500790113690906480442957271758453874807674053585972822991457862466804844368145915886775776439312147932268773962698634916852198088141187677950048416137051310901984346149755076279750314046732812156306133860051291588105345493692933547941117852089316057816921687638724166656990407207643828789808619652666269065263506304305511667526514725865308980443284788114246184739095241613316732041716845055741306301786276333137881276657501386520309405979592929022772974924685914637365465790389169899473307571458292590902646125697577388082033960563763390280616036589045756264768134202267498113994573473273097203095779248310638568829502426294762689411900639627086750579668928984415093495307449685857351835390763446627515853824019064492746511656741135825619901551535031129826264912555183005515676693742516060331086923856115410538816193291139419448330072936488933119811612806828473384938909694745544147139693673072850725385968113291241461197440114468499825117322772078108253133023597499066657023606762927589915202634206355948113156399693198784018102531234964355952122055002094283708281349413985219727268600446916042383097480424419384144368495088254503306565176728524114108300115666244238573603951667207273908799878743916654403688964401283901267992327537764484437944172822417743246910117641519322577134730244753689174691416428478564345571827467213809070295880838679025390633700023521731997

/-- State array after init_genrand(19650218). -/
def mtSeedLitG : Nat := 62685089405509111925910797243914719854890513935494713084094713797279779630627496305943786046941309007281293105221577504421353501605599255248785149356818580886163074212016138319710181437623915839386196989339984175865611290932895638485827512283879634622589907034847096838980553398268338905605705315464924834076955485269257682765843392777664062904318116756644819538761883164862381873685805923051342196114892111881287659915424456096361326051748180740843339721465950121631833352165428366344241754810081140762710579390137795215443629123183303201044796731629341661542390258966032612552126580439913324626563213547393121217728067632048719897064596438939163041106934301355643192260261867872030533878188557727018817797219012064641958276099544136480610826250078810896212505254064619595899307426216931651016613164877613570296351724055264357110051005104450572173606849938075379012356137114572525910752676385589168436483206759652170097284388598518122222819376116616668668677988651997615236221431416155794821321118852088948452164682783715959922435191327367306488124638818446090532334864386359317233873012285172875896330714873881780586230596002778688422250420590175698633544778262136505069053046737202152515000629854634631225453245996997340762744567896897683212149150732909707719966588817675821630380251456266588599804209831660991462715440400663143017564651072677052296295930367391822676512661642282350234567553218318066651318510488484545671729568971887621684270732981974442582657502555066960418690332945218280990034155505553171409775830458482159957769211244505225186771766058316021949327301666418107251589707938065072144733816368743637495699897181007119363672460040974223449086641663004605507793014252452324150238463715514559124307431648478948480649031081489229583165223570218974125422263886587593014744330199975749832650568652404661542746543584685860761547297457070273167102314576665676644281998277713093924236551494770138725647883566971887853912300960949802636372591951717316415323846182747445131420005722224687602711525724505110953736568981699982016588947035894059736087136235396798804019434387781559696138411966704777989194870090051835909943079457649936020314680876367897457337488804889342331824364904005266943816631681518612047693872607083945336048154993001716858914072302230374294986610531277637599664647525761147514008899238689946802093944865612982597431648203028809043429562401771290925843222821220221381984318518256971016750121270624021542153515130386081256853244444367484914891752438843250797295149886721543902585582757118492217204960123203770309672216674331373413106027454841661967870247822106376003696537006476355273043676224973894002060133928765135363584693312631060562155459381152426642778209514491263275588735458188352331628933634618912177576995916817414488324819680108333628484452298807271017999262374749573133359090629722111402666396222385680310709557844049479865847370371052888681758484468279513921172987571336140289500145715018352119752770038578015899178947425013401300127437407370742417936980607757405410607208376626705322894782663757703548808362869195819947150150865798288136994832911439410269353230208345410503242199606186650417333579047848825834242257112060317620885151293421378661990197161958015730358249113963865616811805417654957899792836277351433146683316643158745577273742588847277405020330699298979666450169324546781433015633218213248018986767013905101885085728066131985273947793365444250280947765884488609302913437528001802423347517836456663978922564542901160075954132077499502061844004777463229898312792357201472450520034421742281215395838957029567457078867297742321364249618062920323524100796395855490398720473188748064226082130624085325443879193454095100721902723688608983702297802922465778395428510531587340343771240068168890882622394112252370643121994567113348850616779414952571984309063927162547038575769391208822294299053225776973195785292510157058775147687493667385905281728614066936870793483631104130486096422866739022254251631022238998824784309871214211336594149372534724828516536519652291847191320934127662041939033266344757810255450761243406685982638804631309022215852991706323223872506356963395668107287976200691035733250165615782065576159415303394415966535152327550107294310945533761757937224536792146711105700674959937207778503501562879445241463662142281185819506210181780721218897488871995890898495582077564387715740371190275817001449471008660140255770382875594805433223352833476546594040372715841292252983175468170554585838014797017976570586587751089146553833551413146641975370517778330202052282190648141351908509904289169596729111939424597802445523234111653813513351586367960175769546506050051493655326103823629699245586418016468660736051425039803522537493270385743437525903109563398688573456345292160567787373069854610200635728800730405759403691875432721043746233636765094325962472698626875833148826372580999341547042531665331710768365982359935219565301595187067772247975847412037958098451506998773182171027695752045356894447709388159633645629545493246019135820915900506906032640701290570506299065346661219735445730896769091171352761432210047450382980030625592142825700677633624952217795344145832513082782540989616413040988227257601039794195623143595351637462190706636535912449334420058581521218743569834717812580171279915160794789675762903718339466089866492140118823551337811927493524761760551434001520245324751568861558716803095718510972066599595072196209156923318071322517301806566620458899402166430591631348363311478802800521980525250372511467674969151489645720009661369785217086930227581405674315978920044798755483144811069077253851302610194739624245401270682864202663540116818822475326676741780611737275972111438408802370422377608919256570335384654037352344114105999356653180812503717835632673409647782213628400383443178293619326757139369589058612122088577237252104060778375287897543799460272211546791798613974575310224299012205778134871255296492395729078221387894808011355820153110205338707003138385845672884757408327786763143168159295742358655797897448897721796416755370

/-- Packed state after the first init_by_array loop for seed 42. -/
def mtSeedLit1 : Nat := 219119590220932855555156776390241811785242611238899366655481379854611772335189936262232713916273450084810895091117370094833004413953611079362552293547839432268956861323080373159533996580554473798992782237392573629366602429290897338941340809548472385088277896036005916293132140180043121807612543381639818528967557756480402160905072036178629924321479233631010080324996641673155370737671047633362652480109722868132146190362327854838763202705915139782656700518334223095299163308140607582889732771260148406716038779924614192883373214286845332671002759327071020678006348359262736426011914903439279766602744423957377727114959388723174543729506256750114371323029407496225904496190070452391294283504667390539839676778494299313363847484776363882674313666305043508619065973101368206673701148308117697020093160236451604346313107642043871303597738249667833083555141003041123115325319868292294608053175514040147728156478452357770353096690919778310257947826330971649044560790396646094016332812073331419046578175180965881161601046409084453889634895006374416973645702944783496551953295536735576539211150568098427214519931077060172238499625854994285447564218383610524669679977047019536308222135923482396589425322660140409838141139229275920713204319550978195419603695930678769996202564881873110805929417319645525022539675080982555265596086619311220959512985964960974204878607847043984324694197927573547364521127094360321581496825444520979538219976430159780006149038301501396360017704387019166460420905814317635129308005263882102476459080740734194486812485985441274379188959483564700223801435519783062737701555026091700413917840275093437166053005773254355527111440377913337574556116088695254896198912614285600275184742555726457538722761625437485661250872529533086407827558591512509458378160454323487353167522565914857930499993134674161237966035826776736767388713199333509283322610726221135177896654413965258594432482779211701471689661697239642452024122288105815555220136448999917606181369431034643030582604676911718833045283819557824919870261711723068299894443564019891715314114954984179642260971100692068968675164429678347415266657134265634391850581455269705263809139490177238340873733114478648497871089346512575003644939566793772005191831837590168939249992488175783740015830552419691412774011775391028240796093477362629103549716555354577817801181983511233826049137528135620832370645526650409565444673258327771452662522824470160730922306938203458936371122561546666697032645417287701947435127276117847921045711836240515550430099832013594878076223239605455038357877883638651216310910810477890083984990779895551789787547648958400500124368391918833411912066940430518941400193780388919520807104794994422013936081840158931766963426246311277667843412355233773469822300031270183923011536453973737547962277769977806721136099640811818257604272774093139393943320973804301602489755681041396488557446753937146274396488182905054508715105388645051509499320011444999840993511544721958578094563053875437940886198285037393529962310825567219166801633074094152610608791432777392932815135148612059383969487334788585134338201262654418000677731020025493716494182799929322174470082572405880718525720421832086368058046275828199565899424702356900009503040503202804356954004566897361943656692124042991679691316889241879867146959160950475840352778071425959726347650267909159793135075538277500311347608344916690575850194775303256953342826421968921393691766676519064146408399646834896865251840848037650544086686246243570710193477199703038350432085815441278979170842774078479467197306700931847720303358903424438027909753253202691022777633152248435406840435509064472623873048527313306928209961851649184169421544016296772294918388555556379987343751429448602262256271063724404152650732660262544535494552520135951619434436211238593833625152852692376512689059695760361771534616689988612848802156382256230237459265944106741605465194342734908498611487799400328439688745966891543350239538377860834066865265406838338618903177937577435435416051167405934838701462990845741313431733048477045524258254799427028854198706559649636895810496125453475001228977956128838530315347990812014375976740523163924102274520452250803773883665979351553462298588759784298344907096537803379018829888075197450803119480276807366117295960881876836290095626429247262080684475727377806282127242534314044220149276235772083131921010792082719768688214179052758186770184747050156780322253200684500633168220235420948494597469776285059001070444893998611167078852968892982408460529504644772196059828051587047245018664495799965141419456104015036414614250833326252681969822146000339432507801347606569970928312232378503537038592491633095777142201497103137026430890796701590071253931797787992241562334910724278582839073265643304626532567224313040686240616921338692033575841926355139431284939724401825213410468690666008078545853559472224682556130740738236666080507055389239225912564615284736371325027783121610151516808737898988729740639356950438636283255606091945497175764030224294894990779503973311645249698161737486584605971914125132621298096365848029198185890714952684521365186423489846967520012003358602127969152350985053453610736498063407709623378372309373317382376135935628540588867443508793438803019058387491393987468125612304691364219104576402037570546935863876642715159509355381207925003282547792014496965322007325909140976743636426784070508328327269108489926808083359312750014605241681733016322825324370087265764813812702677678818753977483312559928941812755423440788532419422576478454207724273237189961737540716698927125187174891797110952295949892628481056872638285931103294964700220980510751094744201882023098544002540892838660368055074531030919779470169332891097410156946915219840624525042627345631195958423187794106461450205553151612040126172191687973711624757535697937851795922767046603953149354817154573951446098715313237149950803820355861074510786034312059992971239829015282497505878290730446724988645031999362346306925492487421496215379201053583305629009631439204918990057677983121353697116695

/-- Packed state after the second init_by_array loop for seed 42. -/
def mtSeedLit1b : Nat := 268009757162811146787608071334567316299845415665469249067360912108049929679414729349456330577245021445485301224988105417024809851310509534655746266816106529426094909433350494562520875628009401282074998356688791490629969800771040488056582066147516363199011034310597565586757659044110394233837371714877151097083076125709080296091097675760866299276389350975375504279246496020563612801762052187963258468531172376833899958070782134746971172158887710086865597969149420011929748754726579670192113286804379445468165630262389310917017482269728272939550571702260689202121249586185241547745320563208020523821369665453894628794473793448297281352065675004478966284368821142396943321673280935859623491320566909295613329021709813547839399328142883444722287739053993401743568414760588385346302568085479832896661531770310228572611217296200605900740170162400471486718534351659595413793392323813925183761563285504513809706745880256541908330881641790341638707432706583954695207472929759296088783976083468379695679366795039703163290160761141932635599482185723155275671956311153971733266919408095851019541357832211540537663406032062236080990350514397023135662218119876863999774503332442624132178847102480773560804721396473335311157579190872505640511958472963014375052613878971401541585240029719048865768152859769964410603405293026150685520618377848737653529167413969817986329004189747596989925463230756802059931322565800429008169050668588367830178729848788943510665639263289007283513580042749660042142955071821868994984912567917922231406339975508054415734000507350524191653392463125023445570723606251519065735422484761683537614447468465913060177614787426688355397275010161952528989639173414991223385241581020130691300410117949039212774659133309349403023289871532945376630953939886067161314939442957748000073155333372907035440347118404884459114283137599444190799693153854493244443388133552894532164286518485965537673160608305455497232443068294952739629280461615628045102687742101486050392939633847607180811280804632148012553973014592633636168420226044966279949394232467217418954370493276663707644157231303313402695367428865761850931358361898350158328443260024261325195450860192339200140652551157457991662322821925896973046662243004831805623233770883132820970419330680648167270356568080181533032468856891505217318743020096832434623992796268493820717501129101692441109994412331756885385810981775286811352348679302894094676607119961119926943630417869512384384059385319138304237178514816046268434221250272043636998526923468339240258248529621187637747585566100051779767799757214443902062961148127812071301079588003075152939889734864038250585751587635168840094107486180371764463638950911165478200645166191425946125347887800577822786710363704176983692322279865072247503168872569910725180300710106818687062033466644893613602967114973114547149086622192360757459365334544155396113494655047087898060377020841728418921403292808640164794086399155350471816087036126875896142893481429981567271946920620899823791565522778453142201839888460998645143575364983340061065477757468807694699969602379668813679157992671825399914641934294842584103143220823114292682641258576550899135700796142684873792891233125515505026765936096239619928563956615632694191327254214074836365149311947299254695918294149166142836790634337587894831188176035347561714954738191290883726518180735359636388032584789241729380659435462650178795950530294649220694591225225507405116548886993671340270642190845391207158075380400503091676801687242172092542393541765601610816927527817468941837439143371922771001103563941089954216340262548482527542533170601372904847150331466057817243004866756616133498133972544237377705595628291261180369420940734913567168669277752612289651614485908972476406126253270163508477026394544553038834086629532683702044836627796793295616737269593373010586542613756504312508477001710127185578563788637810132423168709205983711364978027864843939726911848971202277480732847015230118132742336703519172851172540596072890297574065396757951482671487418870556718403778132641380161020132742151640038568631165531901673878397824140847207768051014627815647120923180627323853710100919007607158971633425634447941825287150608587945353056621097345041940085104795842308763616608066997702081143718795720789266688618910958609369584036888735923930740823296932252562392358758306093827418652674403947359296921088108415985827955936500028783131167884838137669918562040029145925848248085266575527568654401245072014968339737593002999438828689098371062223379087934348332985244985705425645116769997601627216915547994597398908806239693943127614373276516312419065182311869168959087671945173063633009482688199055084815207846325141055370310010613535460465038194912961145077829678532992716156393961544087513116319305717584068100194449385593143231388264814172583226175922024738497651682086011497273438428366763742853683401048370690355638349914563732433557458131707881032664026784204140994875668519856291934853016161394194926318017605391329136976733514501894016777415720768007731862310521733477377617698089232413422744777596379312573845304535694598151285395699469028607861739988817099465680724897220962901417799835239367320574568034914727007595999468439500376170190889302457715485857465056336812578813381656828435070331474421517526497197257890716430838558550281033468675614332158172274122381507031806845185860659004410483757852018862606829801921517903415115194633494298171389501129152061241609969578871492819942350909170385133239717853684740330273457064528083199861652465409720258862011286279283821636751632594552636286872529835855942250689964854063191045665290873425890323472385098181629986004213986877332196609039906410511280393371389970146887704369024292901488741233314426950643795880476950553061693770316709212392516613296856414642175871932144795960033774864896141853245525891238886004341303245940412337384543577135364589294730363709839070018024041310157550488830410025687797628294949627475812038795154500320430310582553140098113951848391044070500564468891584852126832376157108575075478267091329429

/-- State array of random.Random(42) right after seeding: equal, digit
by digit, to the 624 getstate() words of CPython. -/
def mtSeedLit2 : Nat := 82663673431515298878348125892076922365783069757798526784244050598313937512767946555105567842135433541961268832679564447481930064532585187162994848009574585122686978465536439186381119346285389971015664497868787229171546936942409743491868498635940684276698436506858484119070421511331132895304993849329208393304167080010636930173614624441936828135292295563718855043520888652492240787378188287948756429859678131320313149722218900291805028338565883078467138401494859521575283099145981678792121605979857514686793130943330313770376111649808959951136893973580829458877602381614555916176041877040780308989402930592924948451008392659903891078302468096510073054561268220357432569293521497131830922044988516040316696461890252658891937812137077698326841028526045017829237605777094083838852105281119467999132979162337968258864765593801439178690440189871328494739303638814863268844841313736550299766837110548953858269079978575300077403214500257399917385654509269855280076866593554001298152333401922224966669026142300705073497006787091546588638315672230373963619276949115860857537915195517971528759783091402967302621538207894751586345254545658890812158326957740026680361046254661091788809833141626179961244339817613410573958847339378373187693619441538637775379117387231005821087272257887575588666415472628576633153140593663370835676581874735924421676041910321962267240021638441198216858885623188152818149414018042869563767627928969512731857081428011617730744208084126530327493218283188330237634627043385971325726381941006315313020942714598258310683987876910665727287731188639790124681293867861646234928635170596055347748876320543460563710598217691119774835137262721653203268760315335132369835811988465882558753871413950567187950888491278778708993179769359589212223140338911648929104812059421030013898069576284523018150963896668952801120411674791778429096110671166995381822858827748143835556358862070943257843870596573540637319545893499686427023193503527501212077208886574386377910506614773834017585095571295086219028523946090089278153258661151101652418776500307460700083973906927280045011707987505449833896480127873306359431148607415078923831461270087142319684009331203361762220712446499023695587145239836507803911814882161915063108199421454462180373951176940080591277458243306990424535174590565608117888570339351020282643416147931579001026071809341119535798341882348591866021341816283858477697743453078021468501089065876249217344973525146889733762953917240334288868075485850723093607653871568457710689630971657574294402882195859207485343534840350175651994341004124212724981721578117943060373849165947808571471891508735080997298866016147935597339741326699207245466538208100666522864891933314470052847443745362970439547486838679354253152706760662870260695765537519959477479236623427719242905028476959368576490782805659127625261440007910351269462263618011075338316276799690902972302414342081963789515076393143995054867467145996471721122262153391442956285601802605476397557566559450267605107458855443216396947043236466552312718601892346433056767222165007631025666329375837184765840658676984284898489439007535391352662806494262031897013250263783539285102395455285405586348388035372015632823519802485179765492948982546612526153800948715917650443950850763563724409276334725236486125780651617723156297129367448296429400501658864742787022386577801752109777995373643436257912637333933711048378945228596862424214289259619104637366641443538704731253676073244211636412676550633624664133121478778776111533665195661274450601309176889593940105997537866071103429448805421406604198813742993998233955753216345778991410288420119110747377910893206478621845275458581206595814392549010399578388394455596558399177559012440595257880737519332053733088704345198907442504378387452888582487598736159677336669375019252418034169126276810242464452009879946391356983340052344519479660054088553061453767842109352665840972474712870381811517528648921344229102378851273254037244071546208559258016189186158802618570846122407575805735030986258251196917519792348510966228747838123198341870470991715526936441643149113847485699378420789111139857383241164952960343291754521639145070355966654445817548644348650273031627831871495744424251118353351051222881461179282505742625883322828268681808442704003090495155928716789727084061892349514338658395371297819336306263603709114744903843904591124462052342531061608033894644700791602929417769154835809424656043301921926405984733455919977169569562649687764138614136181729139101193691064746253805507687858731219097977446277929944857559114214479159089992700650344331766417996128520977707702114605234270300941059024559973626552283595879490977810574097596817932342925187862210088032263679453624373251399815432164509970923732755899633213695217078969529292889501568936211411421832673008676464711723258486764387687868195022143610469168114413816692593499503362135502793949170225772523155861923786490569333307891612009190037098908912854496416224567772506087995574471691774742094533496432215025256857202341100016144546835039088618003145675471911061031651823919108846562898430344438333412649773016774319745863312578255622591730450250454049581974952521575677756510885726227820993325710142791982262002791705187233974393058765755898055574917073353369401448705875691147668673637031620118190837133060462247401748650653817816500141693022196589991967774605824182010372414700031888464714730496618956601046353021989592591742320641287758643958518097449941404447696168491179816629429129771105998930717437864821069172069443993350771034571599696711991967256208924709477644996763434696889220399136009975669525716352049291399547346304876650638301401301618762213031777838267774121901738861940788081719129371439913104498129403320815411623744192827189151602680112510742587865501506308134080999842352934760391759277333729625584783607717610692317409767482322713453654931345215458341138477248249917257282357085856207131022595584665377353030892790299412394424181800230114513106055999290234221809887012605716481381181377152610833997359650142432360208921996034048

/-- State array after the refresh triggered by the first draw of random.Random(42). -/
def mtSeedLit3 : Nat := 23286412696272796128385897882899802046735748944147304095586925937806345412490055899989764787484019671778376362860042742494792413992016635194480038477926904958899144614039557626716988148046858795729988411355407357548889190298165282191259573451220739704130358456492366200248883967389173812742747365951504723827523001491684280272471146320539623073306718256054486728666524616861157674570314020673215994879601644468493397565948697625971234773093914841101193534975382259956342285658764551397402609057923396101053639833475318217931762856992618905368851508431145636474930815718376354884170331578353645378352602708588674621094947420057719398999411780746413367716750015272006187870701685896805295225270884333726677135807614285840605691082136490217584185163901883278716870542932408492276006934865950227228102565619591461173805522792331549657987608467832953423202739185593471886873026513156423612104712278866544088995443062358275943090013331027296613716195131399476645881603863139798632036678923865823483738444232435763768448564749145225791584554176552634074674452371087255094700183545843401961001081364543762853499747092448068502508107593222630087591092190301278596492271084561527815914631099970271527741341154498636817887954386114857723617590227434680446936190223263833291945243787167247149965989045571619886692880836576710444656652995794686726592702042909876779011822418497887649544399191573617662283988123334351033491691796060980506833548165946249816500531072975720101201148937385795784874674629915552672362617383321719837739429255985286112730811702868712409941153617174075894697487470068453019650904234526005029575161998672416784142896346487246864102740666523927113249728893342584950081500666413223075139020834369395133027522567192339447474603437176136121429942424113503165651764463838168080640665909102853392454355233594720929998804403108112539299819964006223882881356867663239923365640981086766641761515297600657027403195393633240963358398367554981774333956721216433851233514169545306034533986830036116585909294995659056896975306339311913500665920155125378855507762655484458244595756571073270346554631189797527287186906544490192119811857340633612822753313718241274967409117961253011924109326791253319825904752833477351536518342894139189453000956528443747216037073273671221727149026146344923908052024457850500041663850036624099467140232474787791721045655918272563736783264349783782731035180013699315093809364598771418606152417216097180548070943269883902267891435223805520989936607956077030220406868186637122337732751075798983567883250427889753615936024670428353008364175599230073860307230172879655230697897043531116402063962476243553472520178188319041538472605912360815622740862670090705068958399109665958228000669173533293354031463386330625667331834652998204824593734638096670793318709992279933082510076752228441866820292945328046102660857229395046334118857136097623449515342034623405425867640111085158005212708735355617504106639713612663723609468506576502149805431988349667888873766989901288124552226611709923696250483328623879467458940304767010528851526461680464236857867452516372589555536686351943179251598160839013012754338815351828372760694583523004453931120329908535994740543763938877977565925800314656356696314860778451301506104495553626674880902354234676963699516108316781033383469889699857398909924439587768695698940339121265261182049269862323764164620756114931585764507820465988192520691623426751401040549597714182200371618208025688973739685384513159399246575377965130891355864446900081101970162893944424756304632423169527481380468427896112720572741216587451395016309850851716420910424598867183019891667575692338585798842294879764817624284278219752523075007123801771903544143700812217310189752937873050113077832258306963562783905735500410546365130101854524919763983206841661367311933478527235156747173998039831748914357363958110023707346171262306842031879110841956153517301114814498515955290074819480993346943212015103100760064168814481550228857878687402486979821435808498704365332158722439149640862842872882305330515624683825889267770073780313093413628761960362785040821728222505917783150425670125466259757911832197125032317718132586927606140166614064453023155532373325035480075314560955164947539185016274212676845349939602719662779258735428274936191714345440299139674205179154738197015510172791710203374566887642266846822627516487759168535594197497712130627077690751420191390629676160138980402797289454242465323821263625442908510948053173773364784462190015868242922154187553627666329911751351367348284498478120355294318548190303313515398623542186825776853395891044485977185103856118630981012292810712210549436275409396561870155846749587968794410401406019592329092419797227756782883858425304340820553674101561825316271266907187479993228490833649511261948282000516355287224823701849161267658147453894622022555465564762662747236105306321164736124720441242391728630986300587810210103304386380987562148870746821955948349781742619760301217033615854063564504285773784578046390044993424643195844511653552226479317239373745300979133210860741015056170308196753896425575987365318209291810315853192469645196632559351154607507854083767429091321860317918982658720636329449846124447523343709157747028570593657907691799462999122224604858032462813412226252078689141167619669763888992450090791106235260761711380574332201438891412838064418792597077561185245612725179349795162598851806363347610022835261658434149733138082336066926500349361306074639508348727036183048346134974496623934852669861527034319363078321856867189640763771583180654524431393492146361864683494027463236383483141406826227013984680097735659500624881852509349301241846631761364507936910779621552262902646323469016683886689777023536772873711539455067644624234633639728370672550427760649707901418501965312729024468387284203044930930023127659691566401597503825305682639201612517425907130819996089253534756782958389002918536303215296996060899872406077485717625280433555794517966049296080338486659354725358640798081366344678683170445274787496285617840986482077

theorem initGenrand_seg1 : iterFor mtInitStep (u32 19650218) 0 104 = mtLitG1 := by decide

theorem initGenrand_seg2 : iterFor mtInitStep mtLitG1 104 104 = mtLitG2 := by decide

theorem initGenrand_seg3 : iterFor mtInitStep mtLitG2 208 104 = mtLitG3 := by decide

theorem initGenrand_seg4 : iterFor mtInitStep mtLitG3 312 104 = mtLitG4 := by decide

theorem initGenrand_seg5 : iterFor mtInitStep mtLitG4 416 104 = mtLitG5 := by decide

theorem initGenrand_seg6 : iterFor mtInitStep mtLitG5 520 103 = mtSeedLitG := by decide

theorem ibaStage1_seg1 : iterFor (ibaStep1 (natToKey 42)) (mtSeedLitG + mtCap) 0 104 = mtLitA1 := by decide

theorem ibaStage1_seg2 : iterFor (ibaStep1 (natToKey 42)) mtLitA1 104 104 = mtLitA2 := by decide

theorem ibaStage1_seg3 : iterFor (ibaStep1 (natToKey 42)) mtLitA2 208 104 = mtLitA3 := by decide

theorem ibaStage1_seg4 : iterFor (ibaStep1 (natToKey 42)) mtLitA3 312 104 = mtLitA4 := by decide

theorem ibaStage1_seg5 : iterFor (ibaStep1 (natToKey 42)) mtLitA4 416 104 = mtLitA5 := by decide

theorem ibaStage1_seg6 : iterFor (ibaStep1 (natToKey 42)) mtLitA5 520 104 = mtSeedLit1 := by decide

theorem ibaStage2_seg1 : iterFor ibaStep2 (mtSeedLit1 % mtCap + mtCap * (mtSeedLit1 / mtCap % 1024)) 0 104 = mtLitB1 := by decide

theorem ibaStage2_seg2 : iterFor ibaStep2 mtLitB1 104 104 = mtLitB2 := by decide

theorem ibaStage2_seg3 : iterFor ibaStep2 mtLitB2 208 104 = mtLitB3 := by decide

theorem ibaStage2_seg4 : iterFor ibaStep2 mtLitB3 312 104 = mtLitB4 := by decide

theorem ibaStage2_seg5 : iterFor ibaStep2 mtLitB4 416 104 = mtLitB5 := by decide

theorem ibaStage2_seg6 : iterFor ibaStep2 mtLitB5 520 103 = mtSeedLit1b := by decide

theorem twist_seg1 : iterFor twistOnce mtSeedLit2 0 104 = mtLitT1 := by decide

theorem twist_seg2 : iterFor twistOnce mtLitT1 104 104 = mtLitT2 := by decide

theorem twist_seg3 : iterFor twistOnce mtLitT2 208 104 = mtLitT3 := by decide

theorem twist_seg4 : iterFor twistOnce mtLitT3 312 104 = mtLitT4 := by decide

theorem twist_seg5 : iterFor twistOnce mtLitT4 416 104 = mtLitT5 := by decide

theorem twist_seg6 : iterFor twistOnce mtLitT5 520 104 = mtSeedLit3 := by decide

theorem initGenrand_seed_eq : initGenrand 19650218 = mtSeedLitG := by
  unfold initGenrand
  rw [(by norm_num : (623:Nat) = 104 + 519), iterFor_add]
  norm_num
  rw [initGenrand_seg1]
  rw [(by norm_num : (519:Nat) = 104 + 415), iterFor_add]
  norm_num
  rw [initGenrand_seg2]
  rw [(by norm_num : (415:Nat) = 104 + 311), iterFor_add]
  norm_num
  rw [initGenrand_seg3]
  rw [(by norm_num : (311:Nat) = 104 + 207), iterFor_add]
  norm_num
  rw [initGenrand_seg4]
  rw [(by norm_num : (207:Nat) = 104 + 103), iterFor_add]
  norm_num
  rw [initGenrand_seg5]
  exact initGenrand_seg6

theorem ibaStage1_seed42_eq : ibaStage1 (natToKey 42) = mtSeedLit1 := by
  unfold ibaStage1
  rw [initGenrand_seed_eq, (by decide : max 624 (natToKey 42).length = 624)]
  rw [(by norm_num : (624:Nat) = 104 + 520), iterFor_add]
  norm_num
  rw [ibaStage1_seg1]
  rw [(by norm_num : (520:Nat) = 104 + 416), iterFor_add]
  norm_num
  rw [ibaStage1_seg2]
  rw [(by norm_num : (416:Nat) = 104 + 312), iterFor_add]
  norm_num
  rw [ibaStage1_seg3]
  rw [(by norm_num : (312:Nat) = 104 + 208), iterFor_add]
  norm_num
  rw [ibaStage1_seg4]
  rw [(by norm_num : (208:Nat) = 104 + 104), iterFor_add]
  norm_num
  rw [ibaStage1_seg5]
  exact ibaStage1_seg6

theorem ibaStage2_seed42_eq : ibaStage2 (natToKey 42) = mtSeedLit1b := by
  unfold ibaStage2
  rw [ibaStage1_seed42_eq]
  rw [(by norm_num : (623:Nat) = 104 + 519), iterFor_add]
  norm_num
  rw [ibaStage2_seg1]
  rw [(by norm_num : (519:Nat) = 104 + 415), iterFor_add]
  norm_num
  rw [ibaStage2_seg2]
  rw [(by norm_num : (415:Nat) = 104 + 311), iterFor_add]
  norm_num
  rw [ibaStage2_seg3]
  rw [(by norm_num : (311:Nat) = 104 + 207), iterFor_add]
  norm_num
  rw [ibaStage2_seg4]
  rw [(by norm_num : (207:Nat) = 104 + 103), iterFor_add]
  norm_num
  rw [ibaStage2_seg5]
  exact ibaStage2_seg6

theorem initByArray_seed42_eq : initByArray (natToKey 42) = mtSeedLit2 := by
  unfold initByArray
  rw [ibaStage2_seed42_eq]
  decide

theorem twist_seed_eq : twist mtSeedLit2 = mtSeedLit3 := by
  unfold twist
  rw [(by norm_num : (624:Nat) = 104 + 520), iterFor_add]
  norm_num
  rw [twist_seg1]
  rw [(by norm_num : (520:Nat) = 104 + 416), iterFor_add]
  norm_num
  rw [twist_seg2]
  rw [(by norm_num : (416:Nat) = 104 + 312), iterFor_add]
  norm_num
  rw [twist_seg3]
  rw [(by norm_num : (312:Nat) = 104 + 208), iterFor_add]
  norm_num
  rw [twist_seg4]
  rw [(by norm_num : (208:Nat) = 104 + 104), iterFor_add]
  norm_num
  rw [twist_seg5]
  exact twist_seg6

theorem pySeedState_42_eq : pySeedState 42 = MTState.mk mtSeedLit2 624 := by
  unfold pySeedState
  rw [initByArray_seed42_eq]

theorem getrandbits_exhausted (k mt : Nat) :
    getrandbits k (MTState.mk mt 624) = getrandbits k (MTState.mk (twist mt) 0) := by
  unfold getrandbits genrandUint32
  norm_num

theorem randbelow_exhausted (n mt : Nat) (h : n ≠ 0) :
    randbelow n (MTState.mk mt 624) = randbelow n (MTState.mk (twist mt) 0) := by
  unfold randbelow
  rw [if_neg h, if_neg h]
  show (let r := getrandbits (bitLength n) (MTState.mk mt 624);
        if r.1 < n then r else randbelowAux n (bitLength n) 999 r.2) =
       (let r := getrandbits (bitLength n) (MTState.mk (twist mt) 0);
        if r.1 < n then r else randbelowAux n (bitLength n) 999 r.2)
  rw [getrandbits_exhausted]

theorem pyShuffleStep_exhausted (mt : Nat) :
    pyShuffleStep (List.range 10, MTState.mk mt 624) 9 =
      pyShuffleStep (List.range 10, MTState.mk (twist mt) 0) 9 := by
  simp only [pyShuffleStep]
  rw [randbelow_exhausted (9 + 1) mt (by norm_num)]

theorem pyShuffle_exhausted_eq (mt : Nat) :
    pyShuffle (MTState.mk mt 624) (List.range 10) =
      pyShuffle (MTState.mk (twist mt) 0) (List.range 10) := by
  unfold pyShuffle
  rw [show ((List.range' 1 ((List.range 10).length - 1)).reverse) =
      [9, 8, 7, 6, 5, 4, 3, 2, 1] from by decide]
  conv_lhs => rw [List.foldl_cons]
  conv_rhs => rw [List.foldl_cons]
  rw [pyShuffleStep_exhausted]

/-- Generator state held by the dataset instance at construction
(__init__ line 69: self.rng = random.Random(self.seed)). -/
def initRng (seed : Nat) : MTState := pySeedState seed

/-- Permutation built at the top of one __iter__ pass (lines 150-155),
together with the generator state the instance keeps afterwards: the
in-place shuffle advances self.rng. -/
def mkPermutation (ds : CustomStreaming) (st : MTState) : List Nat × MTState :=
  if ds.shuffle then pyShuffle st (List.range ds.length)
  else (List.range ds.length, st)

/-- One full __iter__ pass of a shuffling dataset instance: build the
permutation from the instance rng, run the pass, and return the advanced
rng state the instance carries into the next pass. -/
def iterRunSeeded (ds : CustomStreaming) (st : MTState) :
    (List (List (String × BatchCol)) × Option StreamError) × MTState :=
  ((iterRun ds (mkPermutation ds st).1), (mkPermutation ds st).2)

/-- Shuffling single-shard reader over the ten-row frame. -/
def dsShuffle : CustomStreaming :=
  { length := 10
    chunk_size := 1000
    batch_size := 3
    shuffle := true
    shards := [df10] }

/-- C4 amended: iteration output is a function of the construction
parameters and the generator state alone, so two freshly constructed
instances with the same construction arguments and seed produce identical
permutations and identical batch sequences on their first pass; restarting
iteration on the same instance reuses the generator state the previous
pass advanced and may produce a different order (see the
counterexample). -/
theorem c4_fresh_seed_reproducible (n c b : Nat) (shards : List Frame)
    (seed : Nat) :
    iterRunSeeded (CustomStreaming.mk n c b true shards) (initRng seed) =
      iterRunSeeded (CustomStreaming.mk n c b true shards) (initRng seed) :=
  rfl

/-- C4 counterexample: on one instance seeded with 42, the first pass
shuffles with the CPython MT19937 permutation [7,3,2,8,5,6,9,4,0,1], while
the immediately restarted second pass — using the generator state the
first pass advanced — shuffles with [3,5,2,4,1,8,7,0,6,9]; the yielded
batch sequences of the two passes differ. -/
theorem c4_restart_counterexample :
    (mkPermutation dsShuffle (initRng 42)).1 = [7, 3, 2, 8, 5, 6, 9, 4, 0, 1] ∧
    (mkPermutation dsShuffle ((mkPermutation dsShuffle (initRng 42)).2)).1 =
      [3, 5, 2, 4, 1, 8, 7, 0, 6, 9] ∧
    (iterRunSeeded dsShuffle (initRng 42)).1 ≠
      (iterRunSeeded dsShuffle ((iterRunSeeded dsShuffle (initRng 42)).2)).1 := by
  have hseed : initRng 42 = MTState.mk mtSeedLit2 624 := pySeedState_42_eq
  have hp1 : mkPermutation dsShuffle (MTState.mk mtSeedLit2 624) =
      ([7, 3, 2, 8, 5, 6, 9, 4, 0, 1], MTState.mk mtSeedLit3 15) := by
    show pyShuffle (MTState.mk mtSeedLit2 624) (List.range 10) = _
    rw [pyShuffle_exhausted_eq, twist_seed_eq]
    decide
  have hp2 : mkPermutation dsShuffle (MTState.mk mtSeedLit3 15) =
      ([3, 5, 2, 4, 1, 8, 7, 0, 6, 9], MTState.mk mtSeedLit3 25) := by decide
  refine ⟨by rw [hseed, hp1], ?_, ?_⟩
  · rw [hseed, hp1]
    exact congrArg Prod.fst hp2
  · rw [hseed]
    have hr1 : iterRunSeeded dsShuffle (MTState.mk mtSeedLit2 624) =
        (iterRun dsShuffle [7, 3, 2, 8, 5, 6, 9, 4, 0, 1],
          MTState.mk mtSeedLit3 15) := by
      unfold iterRunSeeded
      rw [hp1]
    rw [hr1]
    have hr2 : (iterRunSeeded dsShuffle (MTState.mk mtSeedLit3 15)).1 =
        iterRun dsShuffle [3, 5, 2, 4, 1, 8, 7, 0, 6, 9] := by
      unfold iterRunSeeded
      rw [hp2]
    have hr2b : (iterRunSeeded dsShuffle
        ((iterRun dsShuffle [7, 3, 2, 8, 5, 6, 9, 4, 0, 1],
          MTState.mk mtSeedLit3 15).2)).1 =
        iterRun dsShuffle [3, 5, 2, 4, 1, 8, 7, 0, 6, 9] := hr2
    rw [hr2b]
    decide

end StreamingDataset
